import Mathlib

set_option maxRecDepth 8000

/-!
Verification of the Faculty-Research-Match similarity subsystem.

This file gives a shallow embedding of the similarity computation and
ranking code of the repository:

* `src/lib/similarity.ts` — TF-IDF tokenizer, lexical vectorizer, cosine
  similarity, `calculateSimilarFaculty`, `searchSimilarFaculty`;
* `src/lib/transformers-embedding.ts` — `cleanText`, `generateEmbedding`,
  `generateEmbeddings`, the throwing `cosineSimilarity`, `findSimilar`,
  `padEmbeddingTo1536`, `extractEmbeddingFrom1536`, `testEmbeddingService`;
* `src/lib/openai.ts` (advanced-similarity service) —
  `findSimilarFaculty`, `calculateAdvancedSimilarity`,
  `searchAdvancedSimilarity` with their TF-IDF fallback branches;
* the network analytics route — `calculateCosineSimilarity`, node/cluster
  construction and the capped pairwise link loop.

JavaScript numbers are modelled as real numbers, database rows as lists of
records, and the lazily loaded embedding pipeline as an explicit function
argument `embed : String → Except EmbedError (List ℝ)` (the only part of
the behaviour the code does not determine).  JavaScript `Array.sort` with
comparator `(a, b) => b.similarity - a.similarity` is a stable descending
sort, modelled by `List.mergeSort` with the matching boolean order.
-/

namespace FacultyMatch

/-! ## Vector primitives -/

/-- Sum of squares of the entries of a vector (the `normA` accumulator of
the cosine-similarity loops before the square root is taken). -/
noncomputable def sumSq (v : List ℝ) : ℝ := (v.map (fun x => x * x)).sum

/-- Dot product accumulator of the cosine-similarity loops.  All callers
pass equal-length vectors; on those `zipWith` agrees with the index loop. -/
noncomputable def dotProduct (a b : List ℝ) : ℝ := (List.zipWith (· * ·) a b).sum

/-- The `embedding.reduce((a, b) => a + Math.abs(b), 0)` accumulator used by
`testEmbeddingService`. -/
noncomputable def absSum (v : List ℝ) : ℝ := v.foldl (fun a b => a + |b|) 0

/-- `cosineSimilarity` from `src/lib/similarity.ts` (lines 84–103): on a
length mismatch it returns `0`; otherwise it takes the square roots of the
accumulated norms and returns `0` if either is zero, else the quotient. -/
noncomputable def cosineSimilarity (vectorA vectorB : List ℝ) : ℝ :=
  if vectorA.length ≠ vectorB.length then 0
  else
    let normA := Real.sqrt (sumSq vectorA)
    let normB := Real.sqrt (sumSq vectorB)
    if normA = 0 ∨ normB = 0 then 0
    else dotProduct vectorA vectorB / (normA * normB)

/-- Errors thrown by the embedding/similarity layer (`throw new Error(...)`
sites of `transformers-embedding.ts`, `openai.ts` and the network route). -/
inductive EmbedError where
  | dimensionMismatch : EmbedError
  | unexpectedSize : EmbedError
  | noEmbeddings : EmbedError
  | providerFailure : EmbedError
deriving DecidableEq

/-- `cosineSimilarity` from `src/lib/transformers-embedding.ts` (lines
319–339): it throws on a length mismatch, returns `0` when either
accumulated norm is zero, else divides by the product of the roots. -/
noncomputable def cosineSimilarityT (a b : List ℝ) : Except EmbedError ℝ :=
  if a.length ≠ b.length then .error .dimensionMismatch
  else
    let normA := sumSq a
    let normB := sumSq b
    if normA = 0 ∨ normB = 0 then .ok 0
    else .ok (dotProduct a b / (Real.sqrt normA * Real.sqrt normB))

/-- `calculateCosineSimilarity` from the network route: no length check at
all (the route only applies it to the equal-length extracted vectors). -/
noncomputable def calculateCosineSimilarity (a b : List ℝ) : ℝ :=
  let magnitudeA := Real.sqrt (sumSq a)
  let magnitudeB := Real.sqrt (sumSq b)
  if magnitudeA = 0 ∨ magnitudeB = 0 then 0
  else dotProduct a b / (magnitudeA * magnitudeB)

/-! ## Embedding adapter (padding / extraction) -/

/-- `padEmbeddingTo1536` from `transformers-embedding.ts` (lines 370–381):
a 1536-length vector is returned unchanged, anything else is zero-padded
up to 1536 entries. -/
noncomputable def padEmbeddingTo1536 (embedding : List ℝ) : List ℝ :=
  if embedding.length = 1536 then embedding
  else embedding ++ List.replicate (1536 - embedding.length) 0

/-- `extractEmbeddingFrom1536` from `transformers-embedding.ts` (lines
386–397): a 384-length vector is returned unchanged, anything else is cut
to its first 384 entries. -/
noncomputable def extractEmbeddingFrom1536 (embedding : List ℝ) : List ℝ :=
  if embedding.length = 384 then embedding
  else embedding.take 384

/-- `padEmbeddingTo1536Compat` from `openai.ts` (lines 62–67): throws
unless the input has exactly 384 entries, then pads. -/
noncomputable def padEmbeddingTo1536Compat (embedding384 : List ℝ) :
    Except EmbedError (List ℝ) :=
  if embedding384.length ≠ 384 then .error .unexpectedSize
  else .ok (padEmbeddingTo1536 embedding384)

/-- `extractReal384Embedding` from `openai.ts` (lines 69–74, identical to
the network route's local copy): throws unless the input has exactly 1536
entries, then extracts the first 384. -/
noncomputable def extractReal384Embedding (embedding1536 : List ℝ) :
    Except EmbedError (List ℝ) :=
  if embedding1536.length ≠ 1536 then .error .unexpectedSize
  else .ok (extractEmbeddingFrom1536 embedding1536)

/-- The embedding-size dispatch repeated at every read of a stored vector
in `openai.ts` and the network route: 1536 entries are extracted to 384,
384 entries are used as they are, anything else throws. -/
noncomputable def normalizeStoredEmbedding (emb : List ℝ) :
    Except EmbedError (List ℝ) :=
  if emb.length = 1536 then extractReal384Embedding emb
  else if emb.length = 384 then .ok emb
  else .error .unexpectedSize

/-! ## Tokenizer and lexical vectorizer (`src/lib/similarity.ts`) -/

/-- JavaScript `\w`: ASCII letters, digits and underscore. -/
def isWordChar (c : Char) : Bool := c.isAlphanum || c = '_'

/-- JavaScript `\s` for the characters that occur in this code base. -/
def isSpaceChar (c : Char) : Bool := c = ' ' || c = '\t' || c = '\n' || c = '\r'

/-- Maximal runs of word characters.  `tokenize` lower-cases, replaces
`[^\w\s]` by a space and splits on `\s+`, so every non-word character acts
as a token separator; the empty fragments JavaScript's `split` produces at
the boundaries are removed by the `length > 2` filter either way. -/
def splitRuns : List Char → List (List Char)
  | [] => [[]]
  | c :: cs =>
    match splitRuns cs with
    | t :: ts => if isWordChar c then (c :: t) :: ts else [] :: t :: ts
    | [] => [[]]

/-- The fixed stop-word list of `tokenize` (with the duplicated `"but"`
exactly as in the source). -/
def stopWords : List String :=
  ["the", "and", "for", "are", "but", "not", "you", "all", "can", "her",
   "was", "one", "our", "had", "but", "out", "day", "get", "has", "him",
   "his", "how", "its", "may", "new", "now", "old", "see", "two", "way",
   "who", "boy", "did", "man", "end", "few", "got", "let", "put", "say",
   "she", "too", "use"]

/-- `tokenize` from `similarity.ts` (lines 22–29). -/
def tokenize (text : String) : List String :=
  (((splitRuns (text.data.map Char.toLower)).map (fun cs => String.mk cs)).filter
      (fun w => w.length > 2)).filter
    (fun w => !(stopWords.contains w))

/-- `calculateTF` (lines 32–46) viewed as the lookup-with-default-0 map it
builds: term count divided by total token count. -/
noncomputable def calculateTF (tokens : List String) : String → ℝ :=
  fun term => (tokens.count term : ℝ) / (tokens.length : ℝ)

/-- `calculateIDF` (lines 49–68) viewed as the lookup-with-default-0 map it
builds: `ln(totalDocs / docCount)` for observed terms, `0` for the rest. -/
noncomputable def calculateIDF (documents : List (List String)) : String → ℝ :=
  fun term =>
    let docCount := (documents.filter (fun doc => doc.contains term)).length
    if docCount = 0 then 0
    else Real.log ((documents.length : ℝ) / (docCount : ℝ))

/-- JavaScript's default `Array.sort()` comparator on strings: code-unit
lexicographic order (code-point order for the ASCII data at hand). -/
def charListLE : List Char → List Char → Bool
  | [], _ => true
  | _ :: _, [] => false
  | a :: as, b :: bs => if a = b then charListLE as bs else decide (a < b)

/-- Boolean string order backing `Array.from(allTerms).sort()`. -/
def stringLE (a b : String) : Bool := charListLE a.data b.data

/-- `calculateTFIDF` (lines 71–81): iterate over the vocabulary in sorted
order and multiply the TF and IDF lookups (both defaulting to `0`). -/
noncomputable def calculateTFIDF (tf idf : String → ℝ) (allTerms : List String) :
    List ℝ :=
  (allTerms.mergeSort stringLE).map (fun term => tf term * idf term)

/-- Insertion-ordered deduplication, the behaviour of building a JavaScript
`Set` from a list and reading it back as an array. -/
def jsSetOfList (l : List String) : List String :=
  l.foldl (fun acc a => if acc.contains a then acc else acc ++ [a]) []

/-! ## Records, options and the lexical ranking functions -/

/-- A row of the `faculty` table as selected by the similarity code
(`embedding` is `none` for a `NULL` column, `some v` for a stored vector;
JSON parsing of the stored text is abstracted away). -/
structure FacultyRecord where
  faculty_id : String
  name : String
  title : String
  school : String
  department : String
  keywords : String
  embedding : Option (List ℝ)

/-- The `SimilarityResult` interface shared by `similarity.ts` and
`openai.ts`: target id, display fields and the score — nothing else. -/
structure SimilarityResult where
  faculty_id : String
  name : String
  title : String
  school : String
  department : String
  similarity : ℝ

/-- The option object of `calculateSimilarFaculty` / `searchSimilarFaculty`. -/
structure MatchOptions where
  maxResults : ℕ
  minSimilarity : ℝ
  filterSchool : Option String
  filterDepartment : Option String

/-- The `.eq('school', …)` / `.eq('department', …)` filters both paths
apply to the candidate query. -/
def applyFilters (opts : MatchOptions) (db : List FacultyRecord) :
    List FacultyRecord :=
  let afterSchool :=
    match opts.filterSchool with
    | some s => db.filter (fun f => f.school == s)
    | none => db
  match opts.filterDepartment with
  | some d => afterSchool.filter (fun f => f.department == d)
  | none => afterSchool

/-- Build the result row pushed into the `similarities` array. -/
noncomputable def mkResult (f : FacultyRecord) (s : ℝ) : SimilarityResult :=
  ⟨f.faculty_id, f.name, f.title, f.school, f.department, s⟩

/-- A JavaScript comparator `(a, b) => f(b) - f(a)` as the boolean order of
a stable sort: `a` may stay before `b` iff `f b ≤ f a`. -/
noncomputable def byDescending (f : α → ℝ) (a b : α) : Bool := decide (f b ≤ f a)

/-- The comparator `(a, b) => b.similarity - a.similarity` used on result
rows. -/
noncomputable def simDescLE : SimilarityResult → SimilarityResult → Bool :=
  byDescending (fun r => r.similarity)

/-- `calculateSimilarFaculty` from `similarity.ts` (lines 106–202), record
mode: fetch the filtered set, locate the target (returning `[]` when it is
absent), build the vocabulary and IDF over the full filtered set, score
every other row, drop scores below `minSimilarity`, sort descending and cap
at `maxResults`. -/
noncomputable def calculateSimilarFaculty (targetFacultyId : String)
    (opts : MatchOptions) (db : List FacultyRecord) : List SimilarityResult :=
  let allFaculty := applyFilters opts db
  match allFaculty.find? (fun f => f.faculty_id == targetFacultyId) with
  | none => []
  | some targetFaculty =>
    let otherFaculty := allFaculty.filter (fun f => f.faculty_id != targetFacultyId)
    let allDocuments := allFaculty.map (fun f => tokenize f.keywords)
    let targetTokens := tokenize targetFaculty.keywords
    let allTerms := jsSetOfList allDocuments.flatten
    if allTerms.length = 0 then []
    else
      let idf := calculateIDF allDocuments
      let targetVector := calculateTFIDF (calculateTF targetTokens) idf allTerms
      let similarities := otherFaculty.filterMap (fun f =>
        let facultyVector := calculateTFIDF (calculateTF (tokenize f.keywords)) idf allTerms
        let similarity := cosineSimilarity targetVector facultyVector
        if opts.minSimilarity ≤ similarity then some (mkResult f similarity) else none)
      (similarities.mergeSort simDescLE).take opts.maxResults

/-- `searchSimilarFaculty` from `similarity.ts` (lines 205–294), query
mode: the query is injected as a pseudo-document before computing IDF, and
every filtered row (the query is not a row) is scored. -/
noncomputable def searchSimilarFaculty (query : String) (opts : MatchOptions)
    (db : List FacultyRecord) : List SimilarityResult :=
  let allFaculty := applyFilters opts db
  let queryTokens := tokenize query
  let allDocuments := allFaculty.map (fun f => tokenize f.keywords)
  let documentsWithQuery := queryTokens :: allDocuments
  let allTerms := jsSetOfList documentsWithQuery.flatten
  if allTerms.length = 0 then []
  else
    let idf := calculateIDF documentsWithQuery
    let queryVector := calculateTFIDF (calculateTF queryTokens) idf allTerms
    let similarities := allFaculty.filterMap (fun f =>
      let facultyVector := calculateTFIDF (calculateTF (tokenize f.keywords)) idf allTerms
      let similarity := cosineSimilarity queryVector facultyVector
      if opts.minSimilarity ≤ similarity then some (mkResult f similarity) else none)
    (similarities.mergeSort simDescLE).take opts.maxResults

/-! ## Dense path (`transformers-embedding.ts` and `openai.ts`) -/

/-- The loaded feature-extraction pipeline, abstracted as a function from
cleaned text to either an embedding or a thrown error.  The spec requires
it to be deterministic for identical cleaned input, which a function is by
construction. -/
def EmbedProvider : Type := String → Except EmbedError (List ℝ)

/-- Squeeze the maximal whitespace runs of `replace(/\s+/g, ' ')` down to a
single space character. -/
def collapseWs : List Char → List Char
  | [] => []
  | c :: cs =>
    if isSpaceChar c then
      match cs with
      | c2 :: _ => if isSpaceChar c2 then collapseWs cs else ' ' :: collapseWs cs
      | [] => [' ']
    else c :: collapseWs cs

/-- `replace(/[^\w\s]/g, ' ')`: every character that is neither a word
character nor whitespace becomes a space. -/
def stripPunct (cs : List Char) : List Char :=
  cs.map (fun c => if isWordChar c || isSpaceChar c then c else ' ')

/-- JavaScript `String.prototype.trim`. -/
def trimChars (cs : List Char) : List Char :=
  ((cs.dropWhile isSpaceChar).reverse.dropWhile isSpaceChar).reverse

/-- `cleanText` from `transformers-embedding.ts` (lines 233–239):
lower-case, collapse whitespace, replace punctuation by spaces, trim —
in exactly that order. -/
def cleanText (text : String) : String :=
  String.mk (trimChars (stripPunct (collapseWs (text.data.map Char.toLower))))

/-- `generateEmbedding` from `transformers-embedding.ts` (lines 245–274):
an input that cleans to the empty string yields the all-zero 384-vector
without consulting the provider; otherwise the provider is called on the
cleaned text (and its errors are rethrown). -/
noncomputable def generateEmbeddingT (embed : EmbedProvider) (text : String) :
    Except EmbedError (List ℝ) :=
  let cleanedText := cleanText text
  if cleanedText = "" then .ok (List.replicate 384 0)
  else embed cleanedText

/-- A JavaScript `array.map(f)` where `f` can throw: the first error aborts
the whole map. -/
def mapOrError (f : α → Except EmbedError β) : List α → Except EmbedError (List β)
  | [] => .ok []
  | a :: l =>
    match f a with
    | .error e => .error e
    | .ok b =>
      match mapOrError f l with
      | .error e => .error e
      | .ok bs => .ok (b :: bs)

/-- The `for (let i = 0; i < xs.length; i += batchSize)` slicing of the
batch loops. -/
def toBatches (n : ℕ) (l : List α) : List (List α) :=
  if _h : l.isEmpty || n == 0 then []
  else l.take n :: toBatches n (l.drop n)
termination_by l.length
decreasing_by
  simp only [Bool.or_eq_true, List.isEmpty_iff, beq_iff_eq, not_or] at _h
  simp only [List.length_drop]
  exact Nat.sub_lt (List.length_pos.mpr _h.1) (Nat.pos_of_ne_zero _h.2)

/-- `generateEmbeddings` from `transformers-embedding.ts` (lines 279–314):
clean all texts, DISCARD the ones that cleaned to the empty string, and
only if none survive return one zero-vector per original text; otherwise
embed the surviving texts in batches of 8 (order preserving). -/
noncomputable def generateEmbeddingsT (embed : EmbedProvider) (texts : List String) :
    Except EmbedError (List (List ℝ)) :=
  let cleanedTexts := (texts.map cleanText).filter (fun t => t.length > 0)
  if cleanedTexts.length = 0 then .ok (texts.map (fun _ => List.replicate 384 0))
  else
    match mapOrError (fun batch => mapOrError embed batch) (toBatches 8 cleanedTexts) with
    | .error e => .error e
    | .ok results => .ok results.flatten

/-- `testEmbeddingService` from `transformers-embedding.ts` (lines
402–429), the provider smoke test: embed a fixed phrase, demand 384
entries and a non-zero absolute sum; any thrown error yields `false`. -/
noncomputable def testEmbeddingService (embed : EmbedProvider) : Bool :=
  match generateEmbeddingT embed "machine learning and artificial intelligence" with
  | .error _ => false
  | .ok embedding =>
    if embedding.length ≠ 384 then false
    else if absSum embedding = 0 then false
    else true

/-- A candidate handed to `findSimilar`: id, embedding and the spread
display fields. -/
structure Candidate where
  id : String
  embedding : List ℝ
  name : String
  title : String
  school : String
  department : String

/-- `findSimilar` from `transformers-embedding.ts` (lines 348–364): score
every candidate against the query embedding (a dimension mismatch throws),
drop scores below the threshold, sort descending (stable) and cap at
`topK`. -/
noncomputable def candDescLE : Candidate × ℝ → Candidate × ℝ → Bool :=
  byDescending (fun p => p.2)

/-- See `candDescLE`; this is the body of `findSimilar`. -/
noncomputable def findSimilar (queryEmbedding : List ℝ) (candidates : List Candidate)
    (topK : ℕ) (minSimilarity : ℝ) : Except EmbedError (List (Candidate × ℝ)) :=
  match mapOrError (fun c =>
      match cosineSimilarityT queryEmbedding c.embedding with
      | .error e => .error e
      | .ok s => .ok (c, s)) candidates with
  | .error e => .error e
  | .ok scored =>
    let kept := scored.filterMap (fun p =>
      if minSimilarity ≤ p.2 then some p else none)
    .ok ((kept.mergeSort candDescLE).take topK)

/-- The display fields of a candidate row passed alongside its embedding. -/
structure FacultyDisplay where
  faculty_id : String
  name : String
  title : String
  school : String
  department : String

/-- Make a `FacultyDisplay` from a full row. -/
def FacultyRecord.display (f : FacultyRecord) : FacultyDisplay :=
  ⟨f.faculty_id, f.name, f.title, f.school, f.department⟩

/-- `findSimilarFaculty` of the `AdvancedSimilarityService` in `openai.ts`
(lines 136–177): pair embeddings with display rows by position, call
`findSimilar`, reshape the results — and swallow ANY thrown error into an
empty result list. -/
noncomputable def findSimilarFaculty (targetEmbedding : List ℝ)
    (allEmbeddings : List (List ℝ)) (facultyData : List FacultyDisplay)
    (topK : ℕ) (threshold : ℝ) : List SimilarityResult :=
  let candidates := (allEmbeddings.zip facultyData).map (fun p =>
    Candidate.mk p.2.faculty_id p.1 p.2.name p.2.title p.2.school p.2.department)
  match findSimilar targetEmbedding candidates topK threshold with
  | .error _ => []
  | .ok results => results.map (fun p =>
      ⟨p.1.id, p.1.name, p.1.title, p.1.school, p.1.department, p.2⟩)

/-- The option object of the advanced entry points (`useAdvanced` defaults
to `true` in the source). -/
structure AdvOptions where
  maxResults : ℕ
  minSimilarity : ℝ
  filterSchool : Option String
  filterDepartment : Option String
  useAdvanced : Bool

/-- The options forwarded verbatim to the TF-IDF fallback calls. -/
def AdvOptions.toMatchOptions (o : AdvOptions) : MatchOptions :=
  ⟨o.maxResults, o.minSimilarity, o.filterSchool, o.filterDepartment⟩

/-- The `try` block of `searchAdvancedSimilarity` (`openai.ts` lines
437–498): fetch the filtered rows, keep those carrying an embedding (none
⇒ throw), embed the query, normalize every stored vector, rank densely. -/
noncomputable def searchAdvancedDense (embed : EmbedProvider) (query : String)
    (opts : AdvOptions) (db : List FacultyRecord) :
    Except EmbedError (List SimilarityResult) :=
  let allFaculty := applyFilters opts.toMatchOptions db
  let facultyWithEmbeddings := allFaculty.filter (fun f => f.embedding.isSome)
  if facultyWithEmbeddings.length = 0 then .error .noEmbeddings
  else
    match generateEmbeddingT embed query with
    | .error e => .error e
    | .ok queryEmbedding =>
      match mapOrError (fun f => normalizeStoredEmbedding (f.embedding.getD []))
          facultyWithEmbeddings with
      | .error e => .error e
      | .ok realEmbeddings =>
        let facultyData := facultyWithEmbeddings.map FacultyRecord.display
        .ok (findSimilarFaculty queryEmbedding realEmbeddings facultyData
          opts.maxResults opts.minSimilarity)

/-- `searchAdvancedSimilarity` from `openai.ts` (lines 403–510): probe the
provider unless `useAdvanced` is off; on probe failure or on any error
escaping the dense attempt, call `searchSimilarFaculty` with the identical
arguments. -/
noncomputable def searchAdvancedSimilarity (embed : EmbedProvider) (query : String)
    (opts : AdvOptions) (db : List FacultyRecord) : List SimilarityResult :=
  let isEmbeddingAvailable := opts.useAdvanced && testEmbeddingService embed
  if isEmbeddingAvailable then
    match searchAdvancedDense embed query opts db with
    | .ok results => results
    | .error _ => searchSimilarFaculty query opts.toMatchOptions db
  else searchSimilarFaculty query opts.toMatchOptions db

/-- The `try` block of `calculateAdvancedSimilarity` (`openai.ts` lines
293–386): look the target up by id over the unfiltered table (`.single()`)
and return `[]` when that fails; otherwise fetch the filtered rows, exclude
the target, keep embedded rows (none ⇒ throw), obtain the target embedding
(stored and normalized, or freshly generated from its keywords), rank. -/
noncomputable def calculateAdvancedDense (embed : EmbedProvider)
    (targetFacultyId : String) (opts : AdvOptions) (db : List FacultyRecord) :
    Except EmbedError (List SimilarityResult) :=
  match db.find? (fun f => f.faculty_id == targetFacultyId) with
  | none => .ok []
  | some targetFaculty =>
    let allFaculty := applyFilters opts.toMatchOptions db
    let otherFaculty := allFaculty.filter (fun f => f.faculty_id != targetFacultyId)
    let facultyWithEmbeddings := otherFaculty.filter (fun f => f.embedding.isSome)
    if facultyWithEmbeddings.length = 0 then .error .noEmbeddings
    else
      let targetEmbeddingE :=
        match targetFaculty.embedding with
        | some storedEmbedding => normalizeStoredEmbedding storedEmbedding
        | none => generateEmbeddingT embed targetFaculty.keywords
      match targetEmbeddingE with
      | .error e => .error e
      | .ok targetEmbedding =>
        match mapOrError (fun f => normalizeStoredEmbedding (f.embedding.getD []))
            facultyWithEmbeddings with
        | .error e => .error e
        | .ok realEmbeddings =>
          let facultyData := facultyWithEmbeddings.map FacultyRecord.display
          .ok (findSimilarFaculty targetEmbedding realEmbeddings facultyData
            opts.maxResults opts.minSimilarity)

/-- `calculateAdvancedSimilarity` from `openai.ts` (lines 259–397): same
probe-then-try-then-fall-back shape as the search entry point, with
`calculateSimilarFaculty` as the lexical fallback. -/
noncomputable def calculateAdvancedSimilarity (embed : EmbedProvider)
    (targetFacultyId : String) (opts : AdvOptions) (db : List FacultyRecord) :
    List SimilarityResult :=
  let isEmbeddingAvailable := opts.useAdvanced && testEmbeddingService embed
  if isEmbeddingAvailable then
    match calculateAdvancedDense embed targetFacultyId opts db with
    | .ok results => results
    | .error _ => calculateSimilarFaculty targetFacultyId opts.toMatchOptions db
  else calculateSimilarFaculty targetFacultyId opts.toMatchOptions db

/-! ## Network graph builder (the analytics network route) -/

/-- A faculty row as fetched by the network route: `embedding` is
`NOT NULL` there, so it is a plain vector. -/
structure EmbeddedFaculty where
  faculty_id : String
  name : String
  title : String
  school : String
  department : String
  keywords : String
  embedding : List ℝ

/-- A node of the network graph. -/
structure NetworkNode where
  id : String
  name : String
  title : String
  school : String
  department : String
  clusterId : ℕ
  color : String
  keywords : String
deriving Inhabited, DecidableEq

/-- An entry of the per-node `connections` array. -/
structure Conn where
  target : String
  similarity : ℝ
  weight : ℝ

/-- A link of the network graph. -/
structure NetworkLink where
  source : String
  target : String
  similarity : ℝ
  weight : ℝ

/-- The fixed `colors` palette of the route. -/
def networkPalette : List String :=
  ["#ef4444", "#3b82f6", "#10b981", "#f59e0b",
   "#8b5cf6", "#ec4899", "#6b7280", "#14b8a6"]

/-- `[...new Set(faculty.map(f => f.department))]`: the distinct
departments in order of first appearance. -/
def distinctDepartments (faculty : List EmbeddedFaculty) : List String :=
  jsSetOfList (faculty.map (fun f => f.department))

/-- The node construction of the route: `clusterId` is the index of the
node's department in the first-appearance list of distinct departments,
and the color is the palette cycled by `clusterId % colors.length`. -/
def buildNetworkNodes (faculty : List EmbeddedFaculty) : List NetworkNode :=
  let departments := distinctDepartments faculty
  faculty.map (fun f =>
    let clusterId := departments.indexOf f.department
    let clusterColor := networkPalette.getD (clusterId % networkPalette.length) ""
    ⟨f.faculty_id, f.name, f.title, f.school, f.department, clusterId,
      clusterColor, f.keywords⟩)

/-- The inner `j` loop of the route for one node: every LATER node whose
similarity reaches the threshold becomes a connection, with the visual
weight `min(similarity * 5, 3)` computed at push time. -/
noncomputable def nodeConnections (emb : List ℝ) (rest : List (String × List ℝ))
    (threshold : ℝ) : List Conn :=
  rest.filterMap (fun p =>
    let similarity := calculateCosineSimilarity emb p.2
    if threshold ≤ similarity then
      some ⟨p.1, similarity, min (similarity * 5) 3⟩
    else none)

/-- Descending connection order for the per-node sort. -/
noncomputable def connDescLE : Conn → Conn → Bool :=
  byDescending (fun c => c.similarity)

/-- The pairwise loop of the route over the id/vector pairs: for each node
`i`, collect its connections to later nodes, sort them descending, keep at
most `maxConnections`, and emit them with node `i` as the source. -/
noncomputable def buildNetworkLinksAux (threshold : ℝ) (maxConnections : ℕ) :
    List (String × List ℝ) → List NetworkLink
  | [] => []
  | p :: rest =>
    (((nodeConnections p.2 rest threshold).mergeSort connDescLE).take
        maxConnections).map (fun c => ⟨p.1, c.target, c.similarity, c.weight⟩)
      ++ buildNetworkLinksAux threshold maxConnections rest

/-- The link computation of the route: normalize every stored embedding
first (an unexpected size throws, aborting the request), then run the
capped pairwise loop. -/
noncomputable def buildNetworkLinks (faculty : List EmbeddedFaculty)
    (threshold : ℝ) (maxConnections : ℕ) : Except EmbedError (List NetworkLink) :=
  match mapOrError (fun f => normalizeStoredEmbedding f.embedding) faculty with
  | .error e => .error e
  | .ok embeddings =>
    .ok (buildNetworkLinksAux threshold maxConnections
      ((faculty.map (fun f => f.faculty_id)).zip embeddings))

/-- Two links connect the same unordered pair of nodes. -/
def samePair (a b : NetworkLink) : Prop :=
  (a.source = b.source ∧ a.target = b.target) ∨
    (a.source = b.target ∧ a.target = b.source)

/-! ## Definitions following the spec's words (for comparison claims) -/

/-- Spec wording for claim C8: a node's KEPT PAIRS are all pairs involving
it (earlier and later partners alike) whose similarity reaches the
threshold, listed here with the partner id and the similarity. -/
noncomputable def specNodeKept (nodes : List (String × List ℝ)) (threshold : ℝ)
    (n : String × List ℝ) : List (String × ℝ) :=
  (nodes.filter (fun m => m.1 != n.1)).filterMap (fun m =>
    let s := calculateCosineSimilarity n.2 m.2
    if threshold ≤ s then some (m.1, s) else none)

/-- Descending order on partner/similarity pairs. -/
noncomputable def partnerDescLE : String × ℝ → String × ℝ → Bool :=
  byDescending (fun q => q.2)

/-- Spec wording for claim C8: each node's kept pairs sorted descending and
capped at `maxConnections`. -/
noncomputable def specNodeTop (nodes : List (String × List ℝ)) (threshold : ℝ)
    (maxConnections : ℕ) (n : String × List ℝ) : List (String × ℝ) :=
  ((specNodeKept nodes threshold n).mergeSort partnerDescLE).take maxConnections

/-- Spec wording for claim C8: the edge set is the union of each node's own
top-K, so an edge `{a, b}` exists exactly when at least one of its two
endpoints ranks the other within its own top `maxConnections`. -/
noncomputable def specEdge (nodes : List (String × List ℝ)) (threshold : ℝ)
    (maxConnections : ℕ) (a b : String) : Prop :=
  (∃ n ∈ nodes, n.1 = a ∧
    b ∈ (specNodeTop nodes threshold maxConnections n).map (fun q => q.1)) ∨
  (∃ n ∈ nodes, n.1 = b ∧
    a ∈ (specNodeTop nodes threshold maxConnections n).map (fun q => q.1))

/-- Spec wording for claim C9: the sorted list of distinct departments
present in the filtered set. -/
def specSortedDepartments (faculty : List EmbeddedFaculty) : List String :=
  (distinctDepartments faculty).mergeSort stringLE

/-! ## Helper lemmas -/

@[simp] theorem sumSq_nil : sumSq [] = 0 := rfl

@[simp] theorem sumSq_cons (x : ℝ) (v : List ℝ) :
    sumSq (x :: v) = x * x + sumSq v := by
  simp [sumSq]

theorem sumSq_nonneg (v : List ℝ) : 0 ≤ sumSq v := by
  refine List.sum_nonneg ?_
  intro x hx
  obtain ⟨y, _, rfl⟩ := List.mem_map.mp hx
  exact mul_self_nonneg y

@[simp] theorem sumSq_replicate_zero (n : ℕ) : sumSq (List.replicate n 0) = 0 := by
  induction n with
  | zero => rfl
  | succ k ih => simp [List.replicate_succ, ih]

@[simp] theorem dotProduct_nil_left (v : List ℝ) : dotProduct [] v = 0 := rfl

@[simp] theorem dotProduct_cons (x y : ℝ) (v w : List ℝ) :
    dotProduct (x :: v) (y :: w) = x * y + dotProduct v w := by
  simp [dotProduct]

theorem dotProduct_replicate_zero_left (n : ℕ) (v : List ℝ) :
    dotProduct (List.replicate n 0) v = 0 := by
  induction n generalizing v with
  | zero => rfl
  | succ k ih =>
    cases v with
    | nil => rfl
    | cons y w => simp [List.replicate_succ, ih]

theorem dotProduct_self (v : List ℝ) : dotProduct v v = sumSq v := by
  induction v with
  | nil => rfl
  | cons x w ih => simp [ih]

theorem sqrt_sumSq_eq_zero_iff (v : List ℝ) :
    Real.sqrt (sumSq v) = 0 ↔ sumSq v = 0 := by
  rw [Real.sqrt_eq_zero']
  exact ⟨fun h => le_antisymm h (sumSq_nonneg v), fun h => le_of_eq h⟩

theorem cosineSimilarity_of_dot_zero (a b : List ℝ)
    (hd : dotProduct a b = 0) : cosineSimilarity a b = 0 := by
  unfold cosineSimilarity
  split
  · rfl
  · dsimp only
    split
    · rfl
    · simp [hd]

theorem cosineSimilarityT_of_dot_zero (a b : List ℝ) (hl : a.length = b.length)
    (hd : dotProduct a b = 0) : cosineSimilarityT a b = .ok 0 := by
  unfold cosineSimilarityT
  rw [if_neg (by simp [hl])]
  dsimp only
  split
  · rfl
  · simp [hd]

theorem calculateCosineSimilarity_of_dot_zero (a b : List ℝ)
    (hd : dotProduct a b = 0) : calculateCosineSimilarity a b = 0 := by
  unfold calculateCosineSimilarity
  dsimp only
  split
  · rfl
  · simp [hd]

theorem cosineSimilarity_self (v : List ℝ) (h : sumSq v ≠ 0) :
    cosineSimilarity v v = 1 := by
  unfold cosineSimilarity
  rw [if_neg (by simp)]
  rw [if_neg (by simp [sqrt_sumSq_eq_zero_iff, h])]
  rw [dotProduct_self, Real.mul_self_sqrt (sumSq_nonneg v), div_self h]

theorem sqrt_of_mul_self (a b : ℝ) (hb : 0 ≤ b) (h : b * b = a) :
    Real.sqrt a = b := by
  rw [← h, Real.sqrt_mul_self hb]

theorem absSum_foldl_replicate_one (n : ℕ) (acc : ℝ) :
    List.foldl (fun a b => a + |b|) acc (List.replicate n (1 : ℝ)) = acc + n := by
  induction n generalizing acc with
  | zero => simp
  | succ k ih => simp [List.replicate_succ, ih]; ring

@[simp] theorem absSum_replicate_one (n : ℕ) :
    absSum (List.replicate n (1 : ℝ)) = n := by
  simp [absSum, absSum_foldl_replicate_one]

theorem byDescending_trans (f : α → ℝ) (a b c : α)
    (h₁ : byDescending f a b = true) (h₂ : byDescending f b c = true) :
    byDescending f a c = true := by
  simp only [byDescending, decide_eq_true_eq] at *
  exact le_trans h₂ h₁

theorem byDescending_total (f : α → ℝ) (a b : α) :
    (byDescending f a b || byDescending f b a) = true := by
  simp only [byDescending, Bool.or_eq_true, decide_eq_true_eq]
  exact le_total (f b) (f a)

theorem mem_applyFilters (opts : MatchOptions) (db : List FacultyRecord)
    (f : FacultyRecord) (h : f ∈ applyFilters opts db) : f ∈ db := by
  unfold applyFilters at h
  rcases opts with ⟨_, _, fs, fd⟩
  cases fs <;> cases fd <;> simp at h <;> tauto

/-- Ranking postcondition for the shared `filter → stable sort → cap` tail,
over any comparator of `byDescending` shape. -/
theorem take_mergeSort_sorted (f : α → ℝ) (l : List α) (k : ℕ) :
    ((l.mergeSort (byDescending f)).take k).Pairwise (fun a b => f b ≤ f a) := by
  have hs : (l.mergeSort (byDescending f)).Pairwise
      (fun a b => byDescending f a b = true) :=
    List.sorted_mergeSort (byDescending_trans f) (byDescending_total f) l
  have ht := List.Pairwise.sublist
    (List.take_sublist k (l.mergeSort (byDescending f))) hs
  exact ht.imp (fun h => by simpa [byDescending, decide_eq_true_eq] using h)

theorem mem_take_mergeSort (f : α → ℝ) (l : List α) (k : ℕ) (a : α)
    (h : a ∈ (l.mergeSort (byDescending f)).take k) : a ∈ l :=
  List.mem_mergeSort.mp ((List.take_sublist _ _).mem h)

/-! ## Concrete instances used by counterexamples and witnesses -/

/-- A provider that always answers with the (too short) vector `[1]`. -/
noncomputable def embedConst : EmbedProvider := fun _ => .ok [1]

/-- A provider that always answers the valid all-ones 384-vector, so the
smoke test succeeds. -/
noncomputable def embedGood : EmbedProvider := fun _ => .ok (List.replicate 384 1)

/-- One faculty row with id `"F1"` and no stored embedding. -/
noncomputable def recF1 : FacultyRecord :=
  ⟨"F1", "Fay Lin", "Professor", "Science", "CS", "robotics", none⟩

/-- Default lexical options (`maxResults = 10`, `minSimilarity = 0.1`). -/
noncomputable def mopts1 : MatchOptions := ⟨10, 0.1, none, none⟩

/-- Default advanced options with `useAdvanced = true`. -/
noncomputable def aopts1 : AdvOptions := ⟨10, 0.1, none, none, true⟩

theorem testEmbeddingService_embedGood : testEmbeddingService embedGood = true := by
  unfold testEmbeddingService generateEmbeddingT embedGood
  dsimp only
  rw [if_neg (by decide)]
  simp only [List.length_replicate, absSum_replicate_one, ne_eq]
  norm_num

/-! ## Claim C4 — `cosineSimilarity` -/

/-- Claim C4 (corrected): the length-mismatch behaviour differs per copy.
The `transformers-embedding.ts` copy throws a dimension-mismatch error; the
`similarity.ts` copy returns `0` instead of failing.  Both return `0` when
either vector has zero norm and otherwise return the dot product divided by
the product of the two Euclidean norms. -/
theorem claim4_cosine_spec (a b : List ℝ) :
    (a.length ≠ b.length →
      cosineSimilarity a b = 0 ∧
      cosineSimilarityT a b = .error .dimensionMismatch) ∧
    (a.length = b.length →
      ((sumSq a = 0 ∨ sumSq b = 0) →
        cosineSimilarity a b = 0 ∧ cosineSimilarityT a b = .ok 0) ∧
      (sumSq a ≠ 0 → sumSq b ≠ 0 →
        cosineSimilarity a b =
          dotProduct a b / (Real.sqrt (sumSq a) * Real.sqrt (sumSq b)) ∧
        cosineSimilarityT a b =
          .ok (dotProduct a b / (Real.sqrt (sumSq a) * Real.sqrt (sumSq b))))) := by
  refine ⟨fun hne => ?_, fun heq => ⟨fun hz => ?_, fun ha hb => ?_⟩⟩
  · constructor
    · unfold cosineSimilarity
      rw [if_pos hne]
    · unfold cosineSimilarityT
      rw [if_pos hne]
  · constructor
    · unfold cosineSimilarity
      rw [if_neg (by simp [heq])]
      dsimp only
      rw [if_pos]
      rcases hz with hz | hz
      · exact Or.inl ((sqrt_sumSq_eq_zero_iff a).mpr hz)
      · exact Or.inr ((sqrt_sumSq_eq_zero_iff b).mpr hz)
    · unfold cosineSimilarityT
      rw [if_neg (by simp [heq])]
      dsimp only
      rw [if_pos hz]
  · constructor
    · unfold cosineSimilarity
      rw [if_neg (by simp [heq])]
      dsimp only
      rw [if_neg]
      simp only [sqrt_sumSq_eq_zero_iff, not_or]
      exact ⟨ha, hb⟩
    · unfold cosineSimilarityT
      rw [if_neg (by simp [heq])]
      dsimp only
      rw [if_neg (by simp [ha, hb])]

/-- Claim C4, counterexample to the claim as stated: on vectors of unequal
lengths the `similarity.ts` `cosineSimilarity` does NOT fail with a
dimension-mismatch error — it returns the ordinary score `0`. -/
theorem claim4_counterexample : cosineSimilarity [(1 : ℝ)] [1, 2] = 0 := by
  unfold cosineSimilarity
  rw [if_pos (by simp)]

/-- Claim C4, witness instantiating `claim4_cosine_spec`. -/
theorem claim4_witness :
    (cosineSimilarity [(1 : ℝ)] [1, 2] = 0 ∧
      cosineSimilarityT [(1 : ℝ)] [1, 2] = .error .dimensionMismatch) ∧
    (cosineSimilarity [(0 : ℝ)] [0] = 0 ∧ cosineSimilarityT [(0 : ℝ)] [0] = .ok 0) :=
  ⟨(claim4_cosine_spec [1] [1, 2]).1 (by simp),
    ((claim4_cosine_spec [0] [0]).2 (by simp)).1 (Or.inl (by simp))⟩

/-! ## Claim C5 — padding round trip -/

/-- Claim C5 (confirmed): for every native-length vector (384 entries),
extracting the first 384 entries of the zero-padded 1536-entry vector gives
the vector back, both for the lenient `transformers-embedding.ts` pair and
for the strict throwing pair of `openai.ts`. -/
theorem claim5_roundtrip (v : List ℝ) (h : v.length = 384) :
    extractEmbeddingFrom1536 (padEmbeddingTo1536 v) = v ∧
    (∀ p, padEmbeddingTo1536Compat v = .ok p →
      extractReal384Embedding p = .ok v) := by
  have hpad : padEmbeddingTo1536 v = v ++ List.replicate 1152 0 := by
    unfold padEmbeddingTo1536
    rw [if_neg (by omega), h]
  have hlen : (padEmbeddingTo1536 v).length = 1536 := by
    simp [hpad, h]
  have hext : extractEmbeddingFrom1536 (padEmbeddingTo1536 v) = v := by
    unfold extractEmbeddingFrom1536
    rw [if_neg (by omega), hpad, ← h, List.take_left]
  refine ⟨hext, fun p hp => ?_⟩
  have hp' : p = padEmbeddingTo1536 v := by
    unfold padEmbeddingTo1536Compat at hp
    rw [if_neg (by omega)] at hp
    exact (Except.ok.injEq _ _).mp hp.symm
  subst hp'
  unfold extractReal384Embedding
  rw [if_neg (by omega), hext]

/-- Claim C5, witness at a concrete 384-entry vector. -/
theorem claim5_witness :
    extractEmbeddingFrom1536 (padEmbeddingTo1536 (List.replicate 384 (0 : ℝ))) =
      List.replicate 384 0 ∧
    (∀ p, padEmbeddingTo1536Compat (List.replicate 384 (0 : ℝ)) = .ok p →
      extractReal384Embedding p = .ok (List.replicate 384 0)) :=
  claim5_roundtrip (List.replicate 384 0) (by simp)

/-! ## Claim C10 — batch embedding alignment -/

/-- Claim C10 (code_bug): `generateEmbeddings` of
`transformers-embedding.ts` drops the texts that clean to the empty string
before embedding, so on the input `["", "machine learning"]` it returns a
single embedding for two input texts.  Callers (`generateAndStoreEmbeddings`
in `openai.ts`, and the batch script that even throws on a count mismatch)
rely on one embedding per text at the same index, so the positional
alignment the claim states is broken by the code. -/
theorem claim10_batch_misalignment :
    generateEmbeddingsT embedConst ["", "machine learning"] = .ok [[1]] ∧
    (Except.ok [[(1 : ℝ)]] : Except EmbedError (List (List ℝ))) ≠
      .ok [List.replicate 384 0, [1]] := by
  constructor
  · unfold generateEmbeddingsT
    rw [show ((["", "machine learning"] : List String).map cleanText).filter
        (fun t => t.length > 0) = ["machine learning"] from by decide]
    rw [if_neg (by decide)]
    rw [show toBatches 8 ["machine learning"] = [["machine learning"]] from by
      rw [toBatches, toBatches]; simp]
    simp [mapOrError, embedConst]
  · intro h
    have := (Except.ok.injEq _ _).mp h
    simpa using congrArg List.length this

/-! ## Claim C1 — unknown target id -/

/-- Claim C1 (corrected): an unknown target id does NOT raise a hard
NotFound — both `calculateSimilarFaculty` and `calculateAdvancedSimilarity`
return a normal empty result list.  In the advanced path the empty list is
returned directly from the dense branch without attempting the lexical
fallback for this case. -/
theorem claim1_unknown_target_returns_empty (embed : EmbedProvider)
    (targetFacultyId : String) (mopts : MatchOptions) (aopts : AdvOptions)
    (db : List FacultyRecord)
    (h : ∀ f ∈ db, f.faculty_id ≠ targetFacultyId) :
    calculateSimilarFaculty targetFacultyId mopts db = [] ∧
    calculateAdvancedSimilarity embed targetFacultyId aopts db = [] := by
  have hlexAll : ∀ m : MatchOptions, calculateSimilarFaculty targetFacultyId m db = [] := by
    intro m
    have hfind : (applyFilters m db).find? (fun f => f.faculty_id == targetFacultyId) = none :=
      List.find?_eq_none.mpr (fun x hx => by
        simpa using h x (mem_applyFilters m db x hx))
    unfold calculateSimilarFaculty
    dsimp only
    rw [hfind]
  have hdense : calculateAdvancedDense embed targetFacultyId aopts db = .ok [] := by
    have hfind : db.find? (fun f => f.faculty_id == targetFacultyId) = none :=
      List.find?_eq_none.mpr (fun x hx => by simpa using h x hx)
    unfold calculateAdvancedDense
    rw [hfind]
  refine ⟨hlexAll mopts, ?_⟩
  unfold calculateAdvancedSimilarity
  cases hb : (aopts.useAdvanced && testEmbeddingService embed) with
  | false => simpa using hlexAll aopts.toMatchOptions
  | true => simp [hdense]

/-- Claim C1, counterexample to the claim as stated: for the target id
`"F2"` absent from the one-row database, both functions return the plain
empty list `[]` as an ordinary value — no NotFound is signalled and, in the
probe-succeeding advanced run, no fallback is taken. -/
theorem claim1_counterexample :
    calculateSimilarFaculty "F2" mopts1 [recF1] = [] ∧
    calculateAdvancedSimilarity embedGood "F2" aopts1 [recF1] = [] := by
  have hfind : ([recF1] : List FacultyRecord).find? (fun f => f.faculty_id == "F2") = none := by
    simp [recF1]
  constructor
  · unfold calculateSimilarFaculty
    dsimp only
    rw [show applyFilters mopts1 [recF1] = [recF1] from rfl, hfind]
  · unfold calculateAdvancedSimilarity
    dsimp only
    rw [show (aopts1.useAdvanced && testEmbeddingService embedGood) = true from by
      rw [testEmbeddingService_embedGood]; rfl]
    rw [if_pos rfl]
    unfold calculateAdvancedDense
    rw [hfind]

/-- Claim C1, witness instantiating `claim1_unknown_target_returns_empty`. -/
theorem claim1_witness :
    calculateSimilarFaculty "F9" mopts1 [] = [] ∧
    calculateAdvancedSimilarity embedGood "F9" aopts1 [] = [] :=
  claim1_unknown_target_returns_empty embedGood "F9" mopts1 aopts1 [] (by simp)

/-! ## Claim C3 — provenance tags and the empty filtered set -/

theorem searchSimilarFaculty_of_filtered_empty (query : String) (m : MatchOptions)
    (db : List FacultyRecord) (h : applyFilters m db = []) :
    searchSimilarFaculty query m db = [] := by
  unfold searchSimilarFaculty
  rw [h]
  dsimp only
  split
  · rfl
  · simp

/-- Claim C3 (corrected, provable part): a search over an empty filtered
set returns the empty list and never throws — on every path, dense or
lexical.  (The provenance-tag part of the claim is refuted by
`claim3_counterexample`: results are plain `SimilarityResult` lists.) -/
theorem claim3_empty_set_returns_empty (embed : EmbedProvider) (query : String)
    (opts : AdvOptions) (db : List FacultyRecord)
    (h : applyFilters opts.toMatchOptions db = []) :
    searchAdvancedSimilarity embed query opts db = [] := by
  have hlex := searchSimilarFaculty_of_filtered_empty query opts.toMatchOptions db h
  have hdense : searchAdvancedDense embed query opts db = .error .noEmbeddings := by
    unfold searchAdvancedDense
    rw [h]
    rfl
  unfold searchAdvancedSimilarity
  cases hb : (opts.useAdvanced && testEmbeddingService embed) with
  | false => simpa using hlex
  | true => simpa [hdense] using hlex

/-- First entry of the dense counterexample pair: a stored 384-entry unit
vector along the first axis. -/
noncomputable def e0vec : List ℝ := 1 :: List.replicate 383 0

/-- Second entry: a 384-entry unit vector along the second axis, orthogonal
to `e0vec`. -/
noncomputable def e1vec : List ℝ := 0 :: 1 :: List.replicate 382 0

/-- One faculty row carrying the stored embedding `e0vec`. -/
noncomputable def recZ : FacultyRecord :=
  ⟨"Z", "Zoe Park", "Professor", "Science", "CS", "zebra", some e0vec⟩

/-- A healthy provider answering the probe phrase with the all-ones vector
and every other input with `e1vec`. -/
noncomputable def p3 : EmbedProvider := fun s =>
  if s = "machine learning and artificial intelligence" then
    .ok (List.replicate 384 1)
  else .ok e1vec

/-- Advanced options with `maxResults = 20` and the dense path enabled. -/
noncomputable def aopts3 : AdvOptions := ⟨20, 0.1, none, none, true⟩

theorem testEmbeddingService_p3 : testEmbeddingService p3 = true := by
  unfold testEmbeddingService generateEmbeddingT p3
  dsimp only
  rw [if_neg (by decide), if_pos (by decide)]
  simp only [List.length_replicate, absSum_replicate_one, ne_eq]
  norm_num

theorem e0vec_length : e0vec.length = 384 := by simp [e0vec]

theorem e1vec_length : e1vec.length = 384 := by simp [e1vec]

theorem dot_e1vec_e0vec : dotProduct e1vec e0vec = 0 := by
  unfold e1vec e0vec
  rw [show List.replicate 383 (0 : ℝ) = 0 :: List.replicate 382 0 from rfl]
  simp [dotProduct_replicate_zero_left]

theorem normalize_e0vec : normalizeStoredEmbedding e0vec = .ok e0vec := by
  unfold normalizeStoredEmbedding
  rw [if_neg (by rw [e0vec_length]; norm_num), if_pos e0vec_length]

theorem dense3_eval : searchAdvancedDense p3 "machine" aopts3 [recZ] = .ok [] := by
  have hq : generateEmbeddingT p3 "machine" = .ok e1vec := by
    unfold generateEmbeddingT p3
    dsimp only
    rw [if_neg (by decide), if_neg (by decide)]
  have hcos : cosineSimilarityT e1vec e0vec = .ok 0 :=
    cosineSimilarityT_of_dot_zero _ _ (by rw [e0vec_length, e1vec_length])
      dot_e1vec_e0vec
  have hff : findSimilarFaculty e1vec [e0vec]
      (List.map FacultyRecord.display [recZ]) 20 (0.1 : ℝ) = [] := by
    unfold findSimilarFaculty findSimilar
    simp only [List.map_cons, List.map_nil, List.zip_cons_cons, List.zip_nil_right]
    rw [show mapOrError (fun c =>
        match cosineSimilarityT e1vec c.embedding with
        | .error e => .error e
        | .ok s => .ok (c, s))
        [Candidate.mk (FacultyRecord.display recZ).faculty_id e0vec
          (FacultyRecord.display recZ).name (FacultyRecord.display recZ).title
          (FacultyRecord.display recZ).school (FacultyRecord.display recZ).department] =
        .ok [(Candidate.mk "Z" e0vec "Zoe Park" "Professor" "Science" "CS", 0)] from by
      simp only [mapOrError, recZ, FacultyRecord.display, hcos]]
    dsimp only
    rw [show (List.filterMap (fun p =>
        if (0.1 : ℝ) ≤ p.2 then some p else none)
        [(Candidate.mk "Z" e0vec "Zoe Park" "Professor" "Science" "CS", (0 : ℝ))]) =
        [] from by
      rw [List.filterMap_cons, if_neg (by norm_num), List.filterMap_nil]]
    simp
  unfold searchAdvancedDense
  dsimp only
  rw [show applyFilters aopts3.toMatchOptions [recZ] = [recZ] from rfl]
  rw [show List.filter (fun f => f.embedding.isSome) [recZ] = [recZ] from rfl]
  rw [if_neg (by norm_num), hq]
  rw [show mapOrError (fun f => normalizeStoredEmbedding (f.embedding.getD []))
      [recZ] = .ok [e0vec] from by
    simp only [mapOrError, show recZ.embedding.getD [] = e0vec from rfl, normalize_e0vec]]
  dsimp only
  rw [show aopts3.maxResults = 20 from rfl, show aopts3.minSimilarity = (0.1 : ℝ) from rfl,
    hff]

theorem lex3_eval : searchSimilarFaculty "machine" aopts3.toMatchOptions [recZ] = [] := by
  have hdot : dotProduct
      (calculateTFIDF (calculateTF (tokenize "machine"))
        (calculateIDF [tokenize "machine", tokenize recZ.keywords]) ["machine", "zebra"])
      (calculateTFIDF (calculateTF (tokenize recZ.keywords))
        (calculateIDF [tokenize "machine", tokenize recZ.keywords]) ["machine", "zebra"]) = 0 := by
    unfold calculateTFIDF
    rw [show List.mergeSort ["machine", "zebra"] stringLE = ["machine", "zebra"] from
      List.mergeSort_of_sorted (by decide)]
    rw [show tokenize "machine" = ["machine"] from by decide,
      show recZ.keywords = "zebra" from rfl,
      show tokenize "zebra" = ["zebra"] from by decide]
    simp only [List.map_cons, List.map_nil, dotProduct_cons, dotProduct_nil_left,
      calculateTF]
    rw [show List.count "machine" ["machine"] = 1 from by decide,
      show List.count "zebra" ["machine"] = 0 from by decide,
      show List.count "machine" ["zebra"] = 0 from by decide,
      show List.count "zebra" ["zebra"] = 1 from by decide]
    push_cast
    ring
  have hs : cosineSimilarity
      (calculateTFIDF (calculateTF (tokenize "machine"))
        (calculateIDF [tokenize "machine", tokenize recZ.keywords]) ["machine", "zebra"])
      (calculateTFIDF (calculateTF (tokenize recZ.keywords))
        (calculateIDF [tokenize "machine", tokenize recZ.keywords]) ["machine", "zebra"]) = 0 :=
    cosineSimilarity_of_dot_zero _ _ hdot
  unfold searchSimilarFaculty
  dsimp only
  rw [show applyFilters aopts3.toMatchOptions [recZ] = [recZ] from rfl]
  rw [show aopts3.toMatchOptions.minSimilarity = (0.1 : ℝ) from rfl,
    show aopts3.toMatchOptions.maxResults = 20 from rfl]
  rw [show List.map (fun f => tokenize f.keywords) [recZ] = [tokenize recZ.keywords] from rfl]
  rw [show jsSetOfList ([tokenize "machine", tokenize recZ.keywords] : List (List String)).flatten
      = ["machine", "zebra"] from by decide]
  rw [if_neg (by norm_num)]
  simp only [List.filterMap_cons, List.filterMap_nil]
  rw [hs, if_neg (by norm_num)]
  simp

/-- Claim C3, counterexample to the provenance-tag part of the claim as
stated: a run that ranks DENSELY (its dense attempt succeeds with `.ok []`
while the probe passes) and a direct LEXICAL run return the identical plain
value `[]`.  `SimilarityResult` has only id, display fields and score, so
no result set carries any tag indicating which path produced it. -/
theorem claim3_counterexample :
    (aopts3.useAdvanced && testEmbeddingService p3) = true ∧
    searchAdvancedDense p3 "machine" aopts3 [recZ] = .ok [] ∧
    searchAdvancedSimilarity p3 "machine" aopts3 [recZ] = [] ∧
    searchSimilarFaculty "machine" aopts3.toMatchOptions [recZ] = [] := by
  refine ⟨by rw [testEmbeddingService_p3]; rfl, dense3_eval, ?_, lex3_eval⟩
  unfold searchAdvancedSimilarity
  rw [show (aopts3.useAdvanced && testEmbeddingService p3) = true from by
    rw [testEmbeddingService_p3]; rfl]
  rw [if_pos rfl, dense3_eval]

/-- Claim C3, witness instantiating `claim3_empty_set_returns_empty` at the
empty database. -/
theorem claim3_witness : searchAdvancedSimilarity embedGood "robots" aopts1 [] = [] :=
  claim3_empty_set_returns_empty embedGood "robots" aopts1 [] rfl

/-! ## Claim C6 — ranking postcondition -/

/-- Postcondition of the shared `filter → stable sort → cap` ranking tail
of both lexical entry points, over an arbitrary scoring function. -/
theorem rank_pipeline_post (minSim : ℝ) (k : ℕ) (l : List FacultyRecord)
    (score : FacultyRecord → ℝ) :
    (∀ r ∈ ((l.filterMap (fun f =>
        if minSim ≤ score f then some (mkResult f (score f)) else none)).mergeSort
        simDescLE).take k, minSim ≤ r.similarity) ∧
    (((l.filterMap (fun f =>
        if minSim ≤ score f then some (mkResult f (score f)) else none)).mergeSort
        simDescLE).take k).Pairwise (fun a b => b.similarity ≤ a.similarity) ∧
    (((l.filterMap (fun f =>
        if minSim ≤ score f then some (mkResult f (score f)) else none)).mergeSort
        simDescLE).take k).length ≤ k := by
  unfold simDescLE
  refine ⟨?_, ?_, List.length_take_le k _⟩
  · intro r hr
    have hr' : r ∈ l.filterMap (fun f =>
        if minSim ≤ score f then some (mkResult f (score f)) else none) :=
      mem_take_mergeSort (fun x : SimilarityResult => x.similarity) _ k r hr
    obtain ⟨f, _, hsome⟩ := List.mem_filterMap.mp hr'
    by_cases h : minSim ≤ score f
    · rw [if_pos h] at hsome
      obtain rfl := (Option.some.injEq _ _).mp hsome
      exact h
    · rw [if_neg h] at hsome
      exact absurd hsome (by simp)
  · exact take_mergeSort_sorted (fun x : SimilarityResult => x.similarity) _ k

/-- Every run of `calculateSimilarFaculty` is either an early empty return
or the ranking pipeline applied to some candidate list and score. -/
theorem calculateSimilarFaculty_cases (targetFacultyId : String)
    (m : MatchOptions) (db : List FacultyRecord) :
    calculateSimilarFaculty targetFacultyId m db = [] ∨
    ∃ (l : List FacultyRecord) (score : FacultyRecord → ℝ),
      calculateSimilarFaculty targetFacultyId m db =
        ((l.filterMap (fun f =>
          if m.minSimilarity ≤ score f then some (mkResult f (score f)) else none)).mergeSort
          simDescLE).take m.maxResults := by
  unfold calculateSimilarFaculty
  dsimp only
  cases hfind : (applyFilters m db).find? (fun f => f.faculty_id == targetFacultyId) with
  | none => exact Or.inl rfl
  | some t =>
    dsimp only
    split
    · exact Or.inl rfl
    · exact Or.inr ⟨_, _, rfl⟩

/-- Every run of `searchSimilarFaculty` is either an early empty return or
the ranking pipeline applied to some candidate list and score. -/
theorem searchSimilarFaculty_cases (query : String) (m : MatchOptions)
    (db : List FacultyRecord) :
    searchSimilarFaculty query m db = [] ∨
    ∃ (l : List FacultyRecord) (score : FacultyRecord → ℝ),
      searchSimilarFaculty query m db =
        ((l.filterMap (fun f =>
          if m.minSimilarity ≤ score f then some (mkResult f (score f)) else none)).mergeSort
          simDescLE).take m.maxResults := by
  unfold searchSimilarFaculty
  dsimp only
  split
  · exact Or.inl rfl
  · exact Or.inr ⟨_, _, rfl⟩

/-- Claim C6 (confirmed): in both lexical entry points and in the dense
`findSimilar`, every returned result scores at least `minSimilarity`, the
returned list is descending in similarity, its length is at most
`maxResults` (resp. `topK`), and the sort is stable — any
similarity-descending sublist of the pre-sort list (in particular any run
of ties in input order) survives as a sublist of the sorted list. -/
theorem claim6_ranking_postcondition (targetFacultyId query : String)
    (m : MatchOptions) (db : List FacultyRecord) (queryEmbedding : List ℝ)
    (candidates : List Candidate) (topK : ℕ) (minSimilarity : ℝ) :
    ((∀ r ∈ calculateSimilarFaculty targetFacultyId m db,
        m.minSimilarity ≤ r.similarity) ∧
      (calculateSimilarFaculty targetFacultyId m db).Pairwise
        (fun a b => b.similarity ≤ a.similarity) ∧
      (calculateSimilarFaculty targetFacultyId m db).length ≤ m.maxResults) ∧
    ((∀ r ∈ searchSimilarFaculty query m db, m.minSimilarity ≤ r.similarity) ∧
      (searchSimilarFaculty query m db).Pairwise
        (fun a b => b.similarity ≤ a.similarity) ∧
      (searchSimilarFaculty query m db).length ≤ m.maxResults) ∧
    (∀ res, findSimilar queryEmbedding candidates topK minSimilarity = .ok res →
      (∀ p ∈ res, minSimilarity ≤ p.2) ∧
      res.Pairwise (fun a b => b.2 ≤ a.2) ∧ res.length ≤ topK) ∧
    (∀ c sims : List SimilarityResult,
      c.Pairwise (fun a b => b.similarity ≤ a.similarity) → c.Sublist sims →
      c.Sublist (sims.mergeSort simDescLE)) := by
  refine ⟨?_, ?_, ?_, ?_⟩
  · rcases calculateSimilarFaculty_cases targetFacultyId m db with h | ⟨l, score, h⟩
    · simp [h]
    · rw [h]
      exact rank_pipeline_post m.minSimilarity m.maxResults l score
  · rcases searchSimilarFaculty_cases query m db with h | ⟨l, score, h⟩
    · simp [h]
    · rw [h]
      exact rank_pipeline_post m.minSimilarity m.maxResults l score
  · intro res hres
    unfold findSimilar at hres
    cases hmap : mapOrError (fun c =>
        match cosineSimilarityT queryEmbedding c.embedding with
        | .error e => .error e
        | .ok s => .ok (c, s)) candidates with
    | error e => rw [hmap] at hres; exact absurd hres (by simp)
    | ok scored =>
      rw [hmap] at hres
      dsimp only at hres
      obtain rfl := (Except.ok.injEq _ _).mp hres.symm
      unfold candDescLE
      refine ⟨?_, take_mergeSort_sorted (fun p : Candidate × ℝ => p.2) _ topK,
        List.length_take_le topK _⟩
      intro p hp
      have hp' : p ∈ scored.filterMap (fun p =>
          if minSimilarity ≤ p.2 then some p else none) :=
        mem_take_mergeSort (fun p : Candidate × ℝ => p.2) _ topK p hp
      obtain ⟨q, _, hsome⟩ := List.mem_filterMap.mp hp'
      by_cases h : minSimilarity ≤ q.2
      · rw [if_pos h] at hsome
        obtain rfl := (Option.some.injEq _ _).mp hsome
        exact h
      · rw [if_neg h] at hsome
        exact absurd hsome (by simp)
  · intro c sims hc hsub
    refine List.sublist_mergeSort
      (byDescending_trans (fun r : SimilarityResult => r.similarity))
      (byDescending_total (fun r : SimilarityResult => r.similarity)) ?_ hsub
    exact hc.imp (fun h => by simpa [byDescending, decide_eq_true_eq] using h)

/-- Claim C6, witness instantiating `claim6_ranking_postcondition` at the
empty database, empty candidate set, and empty sublist. -/
theorem claim6_witness :
    ((∀ p ∈ ([] : List (Candidate × ℝ)), (0 : ℝ) ≤ p.2) ∧
      ([] : List (Candidate × ℝ)).Pairwise (fun a b => b.2 ≤ a.2) ∧
      ([] : List (Candidate × ℝ)).length ≤ 5) ∧
    ([] : List SimilarityResult).Sublist
      (([] : List SimilarityResult).mergeSort simDescLE) := by
  have h := claim6_ranking_postcondition "t" "q" mopts1 [] [] [] 5 0
  exact ⟨h.2.2.1 [] (by simp [findSimilar, mapOrError]),
    h.2.2.2 [] [] (by simp) (by simp)⟩

/-! ## Claim C7 — graph edge invariants -/

theorem filterMap_sublist_map (g : α → β) (f : α → Option β)
    (hf : ∀ a b, f a = some b → b = g a) :
    ∀ l : List α, (l.filterMap f).Sublist (l.map g) := by
  intro l
  induction l with
  | nil => simp
  | cons a t ih =>
    rw [List.filterMap_cons, List.map_cons]
    cases hfa : f a with
    | none => exact ih.trans (List.sublist_cons_self _ _)
    | some b => rw [hf a b hfa]; exact ih.cons₂ _

theorem mem_nodeConnections (emb : List ℝ) (rest : List (String × List ℝ))
    (th : ℝ) (c : Conn) (hc : c ∈ nodeConnections emb rest th) :
    c.target ∈ rest.map Prod.fst ∧ th ≤ c.similarity := by
  obtain ⟨p, hp, hsome⟩ := List.mem_filterMap.mp hc
  by_cases h : th ≤ calculateCosineSimilarity emb p.2
  · rw [if_pos h] at hsome
    obtain rfl := (Option.some.injEq _ _).mp hsome
    exact ⟨List.mem_map.mpr ⟨p, hp, rfl⟩, h⟩
  · rw [if_neg h] at hsome
    exact absurd hsome (by simp)

theorem targets_nodeConnections_sublist (emb : List ℝ)
    (rest : List (String × List ℝ)) (th : ℝ) :
    ((nodeConnections emb rest th).map (fun c => c.target)).Sublist
      (rest.map Prod.fst) := by
  unfold nodeConnections
  rw [List.map_filterMap]
  refine filterMap_sublist_map Prod.fst _ ?_ rest
  intro p b h
  by_cases hc : th ≤ calculateCosineSimilarity emb p.2
  · rw [if_pos hc] at h
    simpa using ((Option.some.injEq _ _).mp h).symm
  · rw [if_neg hc] at h
    exact absurd h (by simp)

/-- The per-node link block emitted for the head of the list. -/
noncomputable def headLinks (th : ℝ) (K : ℕ) (p : String × List ℝ)
    (rest : List (String × List ℝ)) : List NetworkLink :=
  (((nodeConnections p.2 rest th).mergeSort connDescLE).take K).map
    (fun c => ⟨p.1, c.target, c.similarity, c.weight⟩)

theorem buildNetworkLinksAux_cons (th : ℝ) (K : ℕ) (p : String × List ℝ)
    (rest : List (String × List ℝ)) :
    buildNetworkLinksAux th K (p :: rest) =
      headLinks th K p rest ++ buildNetworkLinksAux th K rest := rfl

theorem mem_headLinks (th : ℝ) (K : ℕ) (p : String × List ℝ)
    (rest : List (String × List ℝ)) (e : NetworkLink)
    (he : e ∈ headLinks th K p rest) :
    e.source = p.1 ∧ e.target ∈ rest.map Prod.fst ∧ th ≤ e.similarity := by
  obtain ⟨c, hc, rfl⟩ := List.mem_map.mp he
  have hc' : c ∈ nodeConnections p.2 rest th := by
    apply mem_take_mergeSort (fun c : Conn => c.similarity)
      (nodeConnections p.2 rest th) K c
    simpa [connDescLE] using hc
  obtain ⟨ht, hs⟩ := mem_nodeConnections p.2 rest th c hc'
  exact ⟨rfl, ht, hs⟩

theorem targets_headLinks_nodup (th : ℝ) (K : ℕ) (p : String × List ℝ)
    (rest : List (String × List ℝ)) (hnd : (rest.map Prod.fst).Nodup) :
    ((headLinks th K p rest).map (fun e => e.target)).Nodup := by
  have h1 : ((nodeConnections p.2 rest th).map (fun c => c.target)).Nodup :=
    hnd.sublist (targets_nodeConnections_sublist p.2 rest th)
  have h2 : (((nodeConnections p.2 rest th).mergeSort connDescLE).map
      (fun c => c.target)).Nodup := by
    refine (List.Perm.nodup_iff ?_).mpr h1
    exact (List.mergeSort_perm _ _).map _
  have h3 : ((((nodeConnections p.2 rest th).mergeSort connDescLE).take K).map
      (fun c => c.target)).Nodup :=
    h2.sublist ((List.take_sublist _ _).map _)
  unfold headLinks
  rw [List.map_map]
  exact h3

/-- Structural membership: every emitted link's source node occurs strictly
before its target node in the input list, and its similarity meets the
threshold. -/
theorem mem_buildNetworkLinksAux (th : ℝ) (K : ℕ) :
    ∀ (l : List (String × List ℝ)) (e : NetworkLink),
      e ∈ buildNetworkLinksAux th K l →
      ∃ l₁ p l₂, l = l₁ ++ p :: l₂ ∧ e.source = p.1 ∧
        e.target ∈ l₂.map Prod.fst ∧ th ≤ e.similarity := by
  intro l
  induction l with
  | nil => intro e he; exact absurd he (by simp [buildNetworkLinksAux])
  | cons p rest ih =>
    intro e he
    rw [buildNetworkLinksAux_cons] at he
    rcases List.mem_append.mp he with he | he
    · obtain ⟨hs, ht, hsim⟩ := mem_headLinks th K p rest e he
      exact ⟨[], p, rest, rfl, hs, ht, hsim⟩
    · obtain ⟨l₁, q, l₂, rfl, hs, ht, hsim⟩ := ih e he
      exact ⟨p :: l₁, q, l₂, rfl, hs, ht, hsim⟩

theorem head_not_in_rest (p : String × List ℝ) (rest : List (String × List ℝ))
    (hnd : ((p :: rest).map Prod.fst).Nodup) : p.1 ∉ rest.map Prod.fst := by
  rw [List.map_cons] at hnd
  exact (List.nodup_cons.mp hnd).1

theorem source_target_mem (th : ℝ) (K : ℕ) (l : List (String × List ℝ))
    (e : NetworkLink) (he : e ∈ buildNetworkLinksAux th K l) :
    e.source ∈ l.map Prod.fst ∧ e.target ∈ l.map Prod.fst := by
  obtain ⟨l₁, p, l₂, rfl, hs, ht, -⟩ := mem_buildNetworkLinksAux th K l e he
  constructor
  · rw [hs]
    simp
  · simp only [List.map_append, List.map_cons, List.mem_append, List.mem_cons]
    exact Or.inr (Or.inr ht)

theorem buildNetworkLinksAux_pairwise (th : ℝ) (K : ℕ) :
    ∀ l : List (String × List ℝ), (l.map Prod.fst).Nodup →
      (buildNetworkLinksAux th K l).Pairwise (fun a b => ¬ samePair a b) := by
  intro l
  induction l with
  | nil => intro _; simp [buildNetworkLinksAux]
  | cons p rest ih =>
    intro hnd
    have hndr : (rest.map Prod.fst).Nodup := by
      rw [List.map_cons] at hnd
      exact (List.nodup_cons.mp hnd).2
    have hp : p.1 ∉ rest.map Prod.fst := head_not_in_rest p rest hnd
    rw [buildNetworkLinksAux_cons, List.pairwise_append]
    refine ⟨?_, ih hndr, ?_⟩
    · -- within the head block: same source, distinct targets not equal to it
      have hnodup := targets_headLinks_nodup th K p rest hndr
      have htarget : ∀ e ∈ headLinks th K p rest, e.target ≠ p.1 := by
        intro e he heq
        exact hp (heq ▸ (mem_headLinks th K p rest e he).2.1)
      have hsource : ∀ e ∈ headLinks th K p rest, e.source = p.1 :=
        fun e he => (mem_headLinks th K p rest e he).1
      have hpw : ((headLinks th K p rest).map (fun e => e.target)).Pairwise
          (fun a b => a ≠ b) := hnodup
      rw [List.pairwise_map] at hpw
      refine hpw.imp_of_mem ?_
      intro a b ha hb hne hsame
      rcases hsame with ⟨-, h2⟩ | ⟨h1, h2⟩
      · exact hne h2
      · exact htarget b hb (by rw [← h1, hsource a ha])
    · -- across the head block and the recursive tail
      intro a ha b hb hsame
      have hsa : a.source = p.1 := (mem_headLinks th K p rest a ha).1
      have hbmem := source_target_mem th K rest b hb
      rcases hsame with ⟨h1, -⟩ | ⟨h1, -⟩
      · exact hp (hsa ▸ h1 ▸ hbmem.1)
      · exact hp (hsa ▸ h1 ▸ hbmem.2)

theorem mapOrError_ok_length (f : α → Except EmbedError β) :
    ∀ (l : List α) (bs : List β), mapOrError f l = .ok bs → bs.length = l.length := by
  intro l
  induction l with
  | nil => intro bs h; simp [mapOrError] at h; simp [← h]
  | cons a t ih =>
    intro bs h
    unfold mapOrError at h
    cases hfa : f a with
    | error e => rw [hfa] at h; exact absurd h (by simp)
    | ok b =>
      rw [hfa] at h
      cases hrec : mapOrError f t with
      | error e => rw [hrec] at h; exact absurd h (by simp)
      | ok cs =>
        rw [hrec] at h
        obtain rfl := (Except.ok.injEq _ _).mp h.symm
        simp [ih cs hrec]

/-- Claim C7 (confirmed): under unique faculty ids, the network link list
contains no self-edge, no two links over the same unordered node pair, and
no link whose similarity is strictly below the threshold. -/
theorem claim7_graph_edge_invariants (faculty : List EmbeddedFaculty)
    (threshold : ℝ) (maxConnections : ℕ) (links : List NetworkLink)
    (hnd : (faculty.map (fun f => f.faculty_id)).Nodup)
    (hok : buildNetworkLinks faculty threshold maxConnections = .ok links) :
    (∀ e ∈ links, e.source ≠ e.target) ∧
    links.Pairwise (fun a b => ¬ samePair a b) ∧
    (∀ e ∈ links, threshold ≤ e.similarity) := by
  unfold buildNetworkLinks at hok
  cases hmap : mapOrError (fun f => normalizeStoredEmbedding f.embedding) faculty with
  | error e => rw [hmap] at hok; exact absurd hok (by simp)
  | ok embeddings =>
    rw [hmap] at hok
    obtain rfl := (Except.ok.injEq _ _).mp hok.symm
    have hlen : embeddings.length = (faculty.map (fun f => f.faculty_id)).length := by
      rw [mapOrError_ok_length _ faculty embeddings hmap, List.length_map]
    have hfst : (((faculty.map (fun f => f.faculty_id)).zip embeddings).map
        Prod.fst).Nodup := by
      rw [List.map_fst_zip _ _ (le_of_eq hlen.symm)]
      exact hnd
    refine ⟨?_, buildNetworkLinksAux_pairwise threshold maxConnections _ hfst, ?_⟩
    · intro e he heq
      obtain ⟨l₁, p, l₂, hsplit, hs, ht, -⟩ :=
        mem_buildNetworkLinksAux threshold maxConnections _ e he
      have : p.1 ∉ l₂.map Prod.fst := by
        have := hfst
        rw [hsplit, List.map_append, List.map_cons] at this
        exact (List.nodup_cons.mp (this.sublist (List.sublist_append_right _ _))).1
      exact this (hs ▸ heq ▸ ht)
    · intro e he
      obtain ⟨-, -, -, -, -, -, h⟩ :=
        mem_buildNetworkLinksAux threshold maxConnections _ e he
      exact h

/-- Two nodes with distinct ids and zero stored vectors: no pair reaches
the threshold, so the graph has no links at all. -/
noncomputable def facZeroA : EmbeddedFaculty :=
  ⟨"A", "Ann", "Prof", "Sci", "CS", "robotics", List.replicate 384 0⟩

/-- Companion node to `facZeroA`. -/
noncomputable def facZeroB : EmbeddedFaculty :=
  ⟨"B", "Bob", "Prof", "Sci", "EE", "vision", List.replicate 384 0⟩

/-- Claim C7, witness instantiating `claim7_graph_edge_invariants` on a
concrete two-node graph. -/
theorem claim7_witness :
    (∀ e ∈ ([] : List NetworkLink), e.source ≠ e.target) ∧
    ([] : List NetworkLink).Pairwise (fun a b => ¬ samePair a b) ∧
    (∀ e ∈ ([] : List NetworkLink), (0.1 : ℝ) ≤ e.similarity) := by
  have hz : normalizeStoredEmbedding (List.replicate 384 (0 : ℝ)) =
      .ok (List.replicate 384 0) := by
    unfold normalizeStoredEmbedding
    rw [if_neg (by simp), if_pos (by simp)]
  have hcos : calculateCosineSimilarity (List.replicate 384 (0 : ℝ))
      (List.replicate 384 0) = 0 :=
    calculateCosineSimilarity_of_dot_zero _ _ (dotProduct_replicate_zero_left _ _)
  have hok : buildNetworkLinks [facZeroA, facZeroB] (0.1 : ℝ) 10 = .ok [] := by
    unfold buildNetworkLinks
    rw [show mapOrError (fun f => normalizeStoredEmbedding f.embedding)
        [facZeroA, facZeroB] =
        .ok [List.replicate 384 0, List.replicate 384 0] from by
      simp only [mapOrError, facZeroA, facZeroB, hz]]
    dsimp only
    rw [show ([facZeroA, facZeroB].map (fun f => f.faculty_id)).zip
        [List.replicate 384 (0 : ℝ), List.replicate 384 0] =
        [("A", List.replicate 384 0), ("B", List.replicate 384 0)] from by
      simp [facZeroA, facZeroB]]
    rw [show buildNetworkLinksAux (0.1 : ℝ) 10
        [("A", List.replicate 384 0), ("B", List.replicate 384 0)] = [] from by
      rw [buildNetworkLinksAux_cons, buildNetworkLinksAux_cons]
      unfold headLinks nodeConnections
      rw [List.filterMap_cons, if_neg (by rw [hcos]; norm_num)]
      simp [buildNetworkLinksAux]]
  exact claim7_graph_edge_invariants [facZeroA, facZeroB] (0.1 : ℝ) 10 []
    (by simp [facZeroA, facZeroB]) hok

/-! ## Claim C8 — the degree cap is forward-only, not per-node -/

theorem dotProduct_comm : ∀ a b : List ℝ, dotProduct a b = dotProduct b a := by
  intro a
  induction a with
  | nil => intro b; cases b <;> simp [dotProduct]
  | cons x t ih =>
    intro b
    cases b with
    | nil => simp [dotProduct]
    | cons y s => simp only [dotProduct_cons, ih s, mul_comm]

theorem calculateCosineSimilarity_eval (x y : List ℝ) (sx sy d nx ny : ℝ)
    (hsx : sumSq x = sx) (hsy : sumSq y = sy) (hd : dotProduct x y = d)
    (hnx : Real.sqrt sx = nx) (hny : Real.sqrt sy = ny)
    (hx : nx ≠ 0) (hy : ny ≠ 0) :
    calculateCosineSimilarity x y = d / (nx * ny) := by
  unfold calculateCosineSimilarity
  dsimp only
  rw [hsx, hsy, hnx, hny, if_neg (by tauto), hd]

theorem filter_source_headLinks (th : ℝ) (K : ℕ) (p : String × List ℝ)
    (rest : List (String × List ℝ)) (s : String) (hs : s ≠ p.1) :
    (headLinks th K p rest).filter (fun e => e.source == s) = [] := by
  rw [List.filter_eq_nil_iff]
  intro e he
  rw [(mem_headLinks th K p rest e he).1]
  simpa using fun h => hs h.symm

/-- Claim C8 (corrected): the degree cap of the network route is
FORWARD-ONLY.  Every link's source occurs strictly before its target in the
input order, only pairs with later partners compete for a node's cap, and
each node is the SOURCE of at most `maxConnections` links — while the spec's
union-of-per-node-top-K rule is refuted by `claim8_counterexample`. -/
theorem claim8_forward_cap (th : ℝ) (K : ℕ) (l : List (String × List ℝ))
    (hnd : (l.map Prod.fst).Nodup) :
    (∀ e ∈ buildNetworkLinksAux th K l,
      ∃ l₁ p l₂, l = l₁ ++ p :: l₂ ∧ e.source = p.1 ∧
        e.target ∈ l₂.map Prod.fst ∧ th ≤ e.similarity) ∧
    (∀ s, ((buildNetworkLinksAux th K l).filter
      (fun e => e.source == s)).length ≤ K) := by
  refine ⟨fun e he => mem_buildNetworkLinksAux th K l e he, ?_⟩
  induction l with
  | nil => intro s; simp [buildNetworkLinksAux]
  | cons p rest ih =>
    have hndr : (rest.map Prod.fst).Nodup := by
      rw [List.map_cons] at hnd
      exact (List.nodup_cons.mp hnd).2
    have hp : p.1 ∉ rest.map Prod.fst := head_not_in_rest p rest hnd
    intro s
    rw [buildNetworkLinksAux_cons, List.filter_append, List.length_append]
    by_cases hs : s = p.1
    · have htail : (buildNetworkLinksAux th K rest).filter
          (fun e => e.source == s) = [] := by
        rw [List.filter_eq_nil_iff]
        intro e he
        have := (source_target_mem th K rest e he).1
        simp only [beq_iff_eq]
        intro heq
        rw [heq, hs] at this
        exact hp this
      rw [htail]
      have hhead : ((headLinks th K p rest).filter
          (fun e => e.source == s)).length ≤ K := by
        refine le_trans (List.length_filter_le _ _) ?_
        unfold headLinks
        rw [List.length_map]
        exact List.length_take_le K _
      simpa using hhead
    · rw [filter_source_headLinks th K p rest s hs]
      simpa using ih hndr s

/-- Concrete embedding giving pairwise cosines 24/25, 4/5 and 3/5. -/
noncomputable def w0 : List ℝ := 4 :: 3 :: List.replicate 382 0

/-- See `w0`. -/
noncomputable def w1 : List ℝ := 3 :: 4 :: List.replicate 382 0

/-- See `w0`. -/
noncomputable def w2 : List ℝ := 5 :: 0 :: List.replicate 382 0

/-- The three-node counterexample instance in id/vector form. -/
noncomputable def zfac8 : List (String × List ℝ) :=
  [("F0", w0), ("F1", w1), ("F2", w2)]

/-- The three-node counterexample instance as faculty rows. -/
noncomputable def fac80 : EmbeddedFaculty :=
  ⟨"F0", "N0", "T", "S", "D0", "k0", w0⟩

/-- See `fac80`. -/
noncomputable def fac81 : EmbeddedFaculty :=
  ⟨"F1", "N1", "T", "S", "D1", "k1", w1⟩

/-- See `fac80`. -/
noncomputable def fac82 : EmbeddedFaculty :=
  ⟨"F2", "N2", "T", "S", "D2", "k2", w2⟩

theorem sumSq_w0 : sumSq w0 = 25 := by
  unfold w0
  simp
  norm_num

theorem sumSq_w1 : sumSq w1 = 25 := by
  unfold w1
  simp
  norm_num

theorem sumSq_w2 : sumSq w2 = 25 := by
  unfold w2
  simp
  norm_num

theorem sqrt_25 : Real.sqrt 25 = 5 := sqrt_of_mul_self 25 5 (by norm_num) (by norm_num)

theorem dot_w0_w1 : dotProduct w0 w1 = 24 := by
  unfold w0 w1
  simp [dotProduct_replicate_zero_left]
  norm_num

theorem dot_w0_w2 : dotProduct w0 w2 = 20 := by
  unfold w0 w2
  simp [dotProduct_replicate_zero_left]
  norm_num

theorem dot_w1_w2 : dotProduct w1 w2 = 15 := by
  unfold w1 w2
  simp [dotProduct_replicate_zero_left]
  norm_num

theorem cos_w0_w1 : calculateCosineSimilarity w0 w1 = 24 / 25 := by
  rw [calculateCosineSimilarity_eval w0 w1 25 25 24 5 5 sumSq_w0 sumSq_w1
    dot_w0_w1 sqrt_25 sqrt_25 (by norm_num) (by norm_num)]
  norm_num

theorem cos_w0_w2 : calculateCosineSimilarity w0 w2 = 4 / 5 := by
  rw [calculateCosineSimilarity_eval w0 w2 25 25 20 5 5 sumSq_w0 sumSq_w2
    dot_w0_w2 sqrt_25 sqrt_25 (by norm_num) (by norm_num)]
  norm_num

theorem cos_w1_w2 : calculateCosineSimilarity w1 w2 = 3 / 5 := by
  rw [calculateCosineSimilarity_eval w1 w2 25 25 15 5 5 sumSq_w1 sumSq_w2
    dot_w1_w2 sqrt_25 sqrt_25 (by norm_num) (by norm_num)]
  norm_num

theorem cos_w1_w0 : calculateCosineSimilarity w1 w0 = 24 / 25 := by
  rw [calculateCosineSimilarity_eval w1 w0 25 25 24 5 5 sumSq_w1 sumSq_w0
    ((dotProduct_comm w1 w0).trans dot_w0_w1) sqrt_25 sqrt_25
    (by norm_num) (by norm_num)]
  norm_num

theorem cos_w2_w0 : calculateCosineSimilarity w2 w0 = 4 / 5 := by
  rw [calculateCosineSimilarity_eval w2 w0 25 25 20 5 5 sumSq_w2 sumSq_w0
    ((dotProduct_comm w2 w0).trans dot_w0_w2) sqrt_25 sqrt_25
    (by norm_num) (by norm_num)]
  norm_num

theorem cos_w2_w1 : calculateCosineSimilarity w2 w1 = 3 / 5 := by
  rw [calculateCosineSimilarity_eval w2 w1 25 25 15 5 5 sumSq_w2 sumSq_w1
    ((dotProduct_comm w2 w1).trans dot_w1_w2) sqrt_25 sqrt_25
    (by norm_num) (by norm_num)]
  norm_num

theorem conn0_eval : ((nodeConnections w0 [("F1", w1), ("F2", w2)]
    (0.1 : ℝ)).mergeSort connDescLE).take 1 = [⟨"F1", 24 / 25, 3⟩] := by
  have h : nodeConnections w0 [("F1", w1), ("F2", w2)] (0.1 : ℝ) =
      [⟨"F1", 24 / 25, 3⟩, ⟨"F2", 4 / 5, 3⟩] := by
    unfold nodeConnections
    rw [List.filterMap_cons]
    dsimp only
    rw [cos_w0_w1, if_pos (by norm_num), List.filterMap_cons]
    dsimp only
    rw [cos_w0_w2, if_pos (by norm_num), List.filterMap_nil]
    norm_num [min_def]
  rw [h, List.mergeSort_of_sorted (by
    refine List.pairwise_cons.mpr ⟨?_, List.pairwise_singleton _ _⟩
    intro c hc
    rw [List.mem_singleton.mp hc]
    simp only [connDescLE, byDescending, decide_eq_true_eq]
    norm_num)]
  rfl

theorem conn1_eval : ((nodeConnections w1 [("F2", w2)]
    (0.1 : ℝ)).mergeSort connDescLE).take 1 = [⟨"F2", 3 / 5, 3⟩] := by
  have h : nodeConnections w1 [("F2", w2)] (0.1 : ℝ) = [⟨"F2", 3 / 5, 3⟩] := by
    unfold nodeConnections
    rw [List.filterMap_cons]
    dsimp only
    rw [cos_w1_w2, if_pos (by norm_num), List.filterMap_nil]
    norm_num [min_def]
  rw [h, List.mergeSort_singleton]
  rfl

theorem links8_eval : buildNetworkLinks [fac80, fac81, fac82] (0.1 : ℝ) 1 =
    .ok [⟨"F0", "F1", 24 / 25, 3⟩, ⟨"F1", "F2", 3 / 5, 3⟩] := by
  have hn : ∀ w : List ℝ, w.length = 384 →
      normalizeStoredEmbedding w = .ok w := by
    intro w hw
    unfold normalizeStoredEmbedding
    rw [if_neg (by omega), if_pos hw]
  have h0 : w0.length = 384 := by simp [w0]
  have h1 : w1.length = 384 := by simp [w1]
  have h2 : w2.length = 384 := by simp [w2]
  unfold buildNetworkLinks
  rw [show mapOrError (fun f => normalizeStoredEmbedding f.embedding)
      [fac80, fac81, fac82] = .ok [w0, w1, w2] from by
    simp only [mapOrError, fac80, fac81, fac82, hn w0 h0, hn w1 h1, hn w2 h2]]
  dsimp only
  rw [show ([fac80, fac81, fac82].map (fun f => f.faculty_id)).zip
      [w0, w1, w2] = [("F0", w0), ("F1", w1), ("F2", w2)] from by
    simp [fac80, fac81, fac82]]
  rw [buildNetworkLinksAux_cons, buildNetworkLinksAux_cons,
    buildNetworkLinksAux_cons]
  unfold headLinks
  rw [conn0_eval, conn1_eval]
  rw [show nodeConnections w2 [] (0.1 : ℝ) = [] from rfl]
  simp [buildNetworkLinksAux]

theorem specTop_F0 : specNodeTop zfac8 (0.1 : ℝ) 1 ("F0", w0) =
    [("F1", 24 / 25)] := by
  unfold specNodeTop specNodeKept
  rw [show zfac8.filter (fun m => m.1 != "F0") = [("F1", w1), ("F2", w2)] from by
    simp [zfac8]]
  rw [List.filterMap_cons]
  dsimp only
  rw [cos_w0_w1, if_pos (by norm_num), List.filterMap_cons]
  dsimp only
  rw [cos_w0_w2, if_pos (by norm_num), List.filterMap_nil]
  rw [List.mergeSort_of_sorted (by
    refine List.pairwise_cons.mpr ⟨?_, List.pairwise_singleton _ _⟩
    intro c hc
    rw [List.mem_singleton.mp hc]
    simp only [partnerDescLE, byDescending, decide_eq_true_eq]
    norm_num)]
  rfl

theorem specTop_F1 : specNodeTop zfac8 (0.1 : ℝ) 1 ("F1", w1) =
    [("F0", 24 / 25)] := by
  unfold specNodeTop specNodeKept
  rw [show zfac8.filter (fun m => m.1 != "F1") = [("F0", w0), ("F2", w2)] from by
    simp [zfac8]]
  rw [List.filterMap_cons]
  dsimp only
  rw [cos_w1_w0, if_pos (by norm_num), List.filterMap_cons]
  dsimp only
  rw [cos_w1_w2, if_pos (by norm_num), List.filterMap_nil]
  rw [List.mergeSort_of_sorted (by
    refine List.pairwise_cons.mpr ⟨?_, List.pairwise_singleton _ _⟩
    intro c hc
    rw [List.mem_singleton.mp hc]
    simp only [partnerDescLE, byDescending, decide_eq_true_eq]
    norm_num)]
  rfl

theorem specTop_F2 : specNodeTop zfac8 (0.1 : ℝ) 1 ("F2", w2) =
    [("F0", 4 / 5)] := by
  unfold specNodeTop specNodeKept
  rw [show zfac8.filter (fun m => m.1 != "F2") = [("F0", w0), ("F1", w1)] from by
    simp [zfac8]]
  rw [List.filterMap_cons]
  dsimp only
  rw [cos_w2_w0, if_pos (by norm_num), List.filterMap_cons]
  dsimp only
  rw [cos_w2_w1, if_pos (by norm_num), List.filterMap_nil]
  rw [List.mergeSort_of_sorted (by
    refine List.pairwise_cons.mpr ⟨?_, List.pairwise_singleton _ _⟩
    intro c hc
    rw [List.mem_singleton.mp hc]
    simp only [partnerDescLE, byDescending, decide_eq_true_eq]
    norm_num)]
  rfl

/-- Claim C8, counterexample to the claim as stated: with threshold `0.1`
and `maxConnections = 1` on three nodes whose pairwise similarities are
`24/25` (F0–F1), `4/5` (F0–F2) and `3/5` (F1–F2), the code emits the link
F1→F2 although NEITHER endpoint ranks the other in its own top 1 (both
rank F0 first), and emits no link for the unordered pair {F0, F2} although
F2's own top 1 is exactly F0.  So the final edge set is not the union of
each node's top-K over all of its kept pairs. -/
theorem claim8_counterexample :
    buildNetworkLinks [fac80, fac81, fac82] (0.1 : ℝ) 1 =
      .ok [⟨"F0", "F1", 24 / 25, 3⟩, ⟨"F1", "F2", 3 / 5, 3⟩] ∧
    specEdge zfac8 (0.1 : ℝ) 1 "F0" "F2" ∧
    ¬ specEdge zfac8 (0.1 : ℝ) 1 "F1" "F2" := by
  refine ⟨links8_eval, ?_, ?_⟩
  · refine Or.inr ⟨("F2", w2), by simp [zfac8], rfl, ?_⟩
    rw [specTop_F2]
    simp
  · rintro (⟨n, hn, h1, h2⟩ | ⟨n, hn, h1, h2⟩) <;>
      simp only [zfac8, List.mem_cons, List.not_mem_nil, or_false] at hn <;>
      rcases hn with rfl | rfl | rfl <;> simp_all [specTop_F0, specTop_F1, specTop_F2]

/-- Claim C8, witness instantiating `claim8_forward_cap` on the concrete
three-node instance. -/
theorem claim8_witness :
    (∀ e ∈ buildNetworkLinksAux (0.1 : ℝ) 1 zfac8,
      ∃ l₁ p l₂, zfac8 = l₁ ++ p :: l₂ ∧ e.source = p.1 ∧
        e.target ∈ l₂.map Prod.fst ∧ (0.1 : ℝ) ≤ e.similarity) ∧
    (∀ s, ((buildNetworkLinksAux (0.1 : ℝ) 1 zfac8).filter
      (fun e => e.source == s)).length ≤ 1) :=
  claim8_forward_cap (0.1 : ℝ) 1 zfac8
    (by rw [show zfac8.map Prod.fst = ["F0", "F1", "F2"] from rfl]; decide)

/-! ## Claim C9 — cluster ids come from first-appearance order, not sorted order -/

theorem mem_jsSetOfList_aux (l : List String) :
    ∀ (acc : List String) (a : String),
      a ∈ l.foldl (fun acc a => if acc.contains a then acc else acc ++ [a]) acc ↔
        a ∈ acc ∨ a ∈ l := by
  induction l with
  | nil => intro acc a; simp
  | cons x t ih =>
    intro acc a
    rw [List.foldl_cons, ih]
    by_cases hx : acc.contains x
    · rw [if_pos hx]
      constructor
      · rintro (h | h)
        · exact Or.inl h
        · exact Or.inr (List.mem_cons_of_mem x h)
      · rintro (h | h)
        · exact Or.inl h
        · rcases List.mem_cons.mp h with rfl | h
          · exact Or.inl (by simpa using hx)
          · exact Or.inr h
    · rw [if_neg hx]
      simp only [List.mem_append, List.mem_singleton, List.mem_cons]
      tauto

theorem mem_jsSetOfList (l : List String) (a : String) :
    a ∈ jsSetOfList l ↔ a ∈ l := by
  unfold jsSetOfList
  rw [mem_jsSetOfList_aux l [] a]
  simp

/-- Claim C9 (corrected): a node's cluster id is the index of its
department in the FIRST-APPEARANCE list of distinct departments (the spread
of a JavaScript `Set`), that index is always in range, the color is the
fixed eight-entry palette cycled by `clusterId % 8`, and two nodes share a
cluster id exactly when they share a department. -/
theorem claim9_cluster_assignment (faculty : List EmbeddedFaculty) :
    ∀ n ∈ buildNetworkNodes faculty,
      n.clusterId = (distinctDepartments faculty).indexOf n.department ∧
      n.clusterId < (distinctDepartments faculty).length ∧
      n.color = networkPalette.getD (n.clusterId % networkPalette.length) "" ∧
      ∀ m ∈ buildNetworkNodes faculty,
        (n.clusterId = m.clusterId ↔ n.department = m.department) := by
  intro n hn
  obtain ⟨f, hf, rfl⟩ := List.mem_map.mp hn
  have hmem : f.department ∈ distinctDepartments faculty :=
    (mem_jsSetOfList _ _).mpr (List.mem_map.mpr ⟨f, hf, rfl⟩)
  refine ⟨rfl, List.indexOf_lt_length.mpr hmem, rfl, ?_⟩
  intro m hm
  obtain ⟨g, hg, rfl⟩ := List.mem_map.mp hm
  have hmemg : g.department ∈ distinctDepartments faculty :=
    (mem_jsSetOfList _ _).mpr (List.mem_map.mpr ⟨g, hg, rfl⟩)
  exact List.indexOf_inj hmem hmemg

/-- Zoology appears first in the input, Art second. -/
def fac9Z : EmbeddedFaculty :=
  ⟨"A", "Ann", "Prof", "Sci", "Zoology", "animals", []⟩

/-- See `fac9Z`. -/
def fac9A : EmbeddedFaculty :=
  ⟨"B", "Bob", "Prof", "Sci", "Art", "painting", []⟩

/-- Claim C9, counterexample to the claim as stated: with departments
`["Zoology", "Art"]` in input order, the code assigns the Zoology node
cluster id `0` (its index in first-appearance order), while the index of
`"Zoology"` in the SORTED distinct-department list is `1` — so cluster ids
are not indices into the sorted list. -/
theorem claim9_counterexample :
    (buildNetworkNodes [fac9Z, fac9A]).map (fun n => n.clusterId) = [0, 1] ∧
    specSortedDepartments [fac9Z, fac9A] = ["Art", "Zoology"] ∧
    ¬ ∀ n ∈ buildNetworkNodes [fac9Z, fac9A],
        n.clusterId = (specSortedDepartments [fac9Z, fac9A]).indexOf n.department := by
  have hsorted : specSortedDepartments [fac9Z, fac9A] = ["Art", "Zoology"] := by
    unfold specSortedDepartments
    rw [show distinctDepartments [fac9Z, fac9A] = ["Zoology", "Art"] from by decide]
    rw [List.mergeSort]
    simp only [List.splitInTwo_fst, List.splitInTwo_snd]
    norm_num
    rw [List.cons_merge_cons, show stringLE "Zoology" "Art" = false from by decide]
    simp
  refine ⟨by decide, hsorted, fun h => ?_⟩
  have hz := h (buildNetworkNodes [fac9Z, fac9A]).head! (by decide)
  rw [hsorted] at hz
  revert hz
  decide

/-- Claim C9, witness instantiating `claim9_cluster_assignment` on the
two-department instance. -/
theorem claim9_witness :
    (buildNetworkNodes [fac9Z, fac9A]).head!.clusterId =
      (distinctDepartments [fac9Z, fac9A]).indexOf
        (buildNetworkNodes [fac9Z, fac9A]).head!.department ∧
    (buildNetworkNodes [fac9Z, fac9A]).head!.clusterId <
      (distinctDepartments [fac9Z, fac9A]).length ∧
    (buildNetworkNodes [fac9Z, fac9A]).head!.color =
      networkPalette.getD
        ((buildNetworkNodes [fac9Z, fac9A]).head!.clusterId %
          networkPalette.length) "" ∧
    ∀ m ∈ buildNetworkNodes [fac9Z, fac9A],
      ((buildNetworkNodes [fac9Z, fac9A]).head!.clusterId = m.clusterId ↔
        (buildNetworkNodes [fac9Z, fac9A]).head!.department = m.department) :=
  claim9_cluster_assignment [fac9Z, fac9A]
    (buildNetworkNodes [fac9Z, fac9A]).head! (by decide)

/-! ## Claim C2 — fallback equivalence -/

/-- Claim C2 (corrected): the lexical fallback is called with the identical
`maxResults`, `minSimilarity`, `filterSchool`, `filterDepartment` arguments
whenever `useAdvanced` is off, the provider probe fails, or ANY error
escapes the dense attempt (which covers the no-embedded-candidate throw and
every error thrown while fetching the query/target embedding or normalizing
stored vectors).  The one exception, refuted by `claim2_counterexample`:
an error thrown INSIDE the inner ranking helper `findSimilarFaculty` is
swallowed there into `[]` and does not reach the fallback. -/
theorem claim2_fallback_equals_lexical (embed : EmbedProvider)
    (query targetFacultyId : String) (opts : AdvOptions)
    (db : List FacultyRecord) :
    ((opts.useAdvanced = false ∨ testEmbeddingService embed = false) →
      searchAdvancedSimilarity embed query opts db =
        searchSimilarFaculty query opts.toMatchOptions db ∧
      calculateAdvancedSimilarity embed targetFacultyId opts db =
        calculateSimilarFaculty targetFacultyId opts.toMatchOptions db) ∧
    (∀ e, searchAdvancedDense embed query opts db = .error e →
      searchAdvancedSimilarity embed query opts db =
        searchSimilarFaculty query opts.toMatchOptions db) ∧
    (∀ e, calculateAdvancedDense embed targetFacultyId opts db = .error e →
      calculateAdvancedSimilarity embed targetFacultyId opts db =
        calculateSimilarFaculty targetFacultyId opts.toMatchOptions db) := by
  refine ⟨fun hoff => ?_, fun e he => ?_, fun e he => ?_⟩
  · have hb : (opts.useAdvanced && testEmbeddingService embed) = false := by
      rcases hoff with h | h <;> simp [h]
    constructor
    · unfold searchAdvancedSimilarity
      rw [hb]
      simp
    · unfold calculateAdvancedSimilarity
      rw [hb]
      simp
  · unfold searchAdvancedSimilarity
    cases hb : (opts.useAdvanced && testEmbeddingService embed) with
    | false => simp
    | true => simp [he]
  · unfold calculateAdvancedSimilarity
    cases hb : (opts.useAdvanced && testEmbeddingService embed) with
    | false => simp
    | true => simp [he]

/-- A provider whose every call throws. -/
noncomputable def embedFail : EmbedProvider := fun _ => .error .providerFailure

theorem testEmbeddingService_embedFail : testEmbeddingService embedFail = false := by
  unfold testEmbeddingService generateEmbeddingT embedFail
  dsimp only
  rw [if_neg (by decide)]

theorem normalizeStoredEmbedding_of_len384 (emb : List ℝ) (h : emb.length = 384) :
    normalizeStoredEmbedding emb = .ok emb := by
  unfold normalizeStoredEmbedding
  rw [if_neg (by omega), if_pos h]

/-- Claim C2, witness instantiating `claim2_fallback_equals_lexical` for a
failed probe, a dense search throw, and a dense record-mode throw. -/
theorem claim2_witness :
    (searchAdvancedSimilarity embedFail "robots" aopts1 [] =
        searchSimilarFaculty "robots" aopts1.toMatchOptions [] ∧
      calculateAdvancedSimilarity embedFail "F1" aopts1 [] =
        calculateSimilarFaculty "F1" aopts1.toMatchOptions []) ∧
    searchAdvancedSimilarity embedGood "robots" aopts1 [] =
      searchSimilarFaculty "robots" aopts1.toMatchOptions [] ∧
    calculateAdvancedSimilarity embedGood "F1" aopts1 [recF1] =
      calculateSimilarFaculty "F1" aopts1.toMatchOptions [recF1] := by
  refine ⟨(claim2_fallback_equals_lexical embedFail "robots" "F1" aopts1 []).1
      (Or.inr testEmbeddingService_embedFail), ?_, ?_⟩
  · exact (claim2_fallback_equals_lexical embedGood "robots" "F1" aopts1 []).2.1
      .noEmbeddings rfl
  · refine (claim2_fallback_equals_lexical embedGood "robots" "F1" aopts1
      [recF1]).2.2 .noEmbeddings ?_
    unfold calculateAdvancedDense
    rw [show ([recF1] : List FacultyRecord).find?
        (fun f => f.faculty_id == "F1") = some recF1 from by simp [recF1]]
    rfl

/-- The two candidate rows of the fallback counterexample: valid stored
embeddings, keywords that give the first row a perfect lexical match for
the query. -/
noncomputable def recA2 : FacultyRecord :=
  ⟨"A", "Alice", "Prof", "Sci", "CS", "learning machine", some (List.replicate 384 1)⟩

/-- See `recA2`. -/
noncomputable def recB2 : FacultyRecord :=
  ⟨"B", "Bob", "Prof", "Sci", "EE", "zebra", some (List.replicate 384 1)⟩

/-- A provider that passes the probe but answers every other text with the
three-entry vector `[1, 2, 3]`. -/
noncomputable def pBad : EmbedProvider := fun s =>
  if s = "machine learning and artificial intelligence" then
    .ok (List.replicate 384 1)
  else .ok [1, 2, 3]

/-- The candidates `findSimilar` receives in the counterexample run. -/
noncomputable def cand2A : Candidate :=
  ⟨"A", List.replicate 384 1, "Alice", "Prof", "Sci", "CS"⟩

/-- See `cand2A`. -/
noncomputable def cand2B : Candidate :=
  ⟨"B", List.replicate 384 1, "Bob", "Prof", "Sci", "EE"⟩

theorem testEmbeddingService_pBad : testEmbeddingService pBad = true := by
  unfold testEmbeddingService generateEmbeddingT pBad
  dsimp only
  rw [if_neg (by decide), if_pos (by decide)]
  simp only [List.length_replicate, absSum_replicate_one, ne_eq]
  norm_num

theorem findSimilar_pBad_error :
    findSimilar [(1 : ℝ), 2, 3] [cand2A, cand2B] 20 (0.1 : ℝ) =
      .error .dimensionMismatch := by
  have hcosErr : cosineSimilarityT [(1 : ℝ), 2, 3] (List.replicate 384 (1 : ℝ)) =
      .error .dimensionMismatch := by
    unfold cosineSimilarityT
    rw [if_pos (by simp)]
  unfold findSimilar
  rw [show mapOrError (fun c =>
      match cosineSimilarityT [(1 : ℝ), 2, 3] c.embedding with
      | .error e => .error e
      | .ok s => .ok (c, s)) [cand2A, cand2B] = .error .dimensionMismatch from by
    simp only [mapOrError, cand2A, hcosErr]]

theorem dense2_eval :
    searchAdvancedDense pBad "learning machine" aopts3 [recA2, recB2] = .ok [] := by
  have hq : generateEmbeddingT pBad "learning machine" = .ok [(1 : ℝ), 2, 3] := by
    unfold generateEmbeddingT pBad
    dsimp only
    rw [if_neg (by decide), if_neg (by decide)]
  have hff : findSimilarFaculty [(1 : ℝ), 2, 3]
      [List.replicate 384 1, List.replicate 384 1]
      (List.map FacultyRecord.display [recA2, recB2]) 20 (0.1 : ℝ) = [] := by
    unfold findSimilarFaculty
    rw [show (([List.replicate 384 (1 : ℝ), List.replicate 384 1].zip
        (List.map FacultyRecord.display [recA2, recB2])).map (fun p =>
        Candidate.mk p.2.faculty_id p.1 p.2.name p.2.title p.2.school
          p.2.department)) = [cand2A, cand2B] from rfl]
    dsimp only
    rw [findSimilar_pBad_error]
  unfold searchAdvancedDense
  dsimp only
  rw [show applyFilters aopts3.toMatchOptions [recA2, recB2] = [recA2, recB2] from rfl]
  rw [show List.filter (fun f => f.embedding.isSome) [recA2, recB2] =
    [recA2, recB2] from rfl]
  rw [if_neg (by norm_num), hq]
  have hnorm : normalizeStoredEmbedding (List.replicate 384 (1 : ℝ)) =
      .ok (List.replicate 384 1) :=
    normalizeStoredEmbedding_of_len384 _ (by simp)
  rw [show mapOrError (fun f => normalizeStoredEmbedding (f.embedding.getD []))
      [recA2, recB2] = .ok [List.replicate 384 1, List.replicate 384 1] from by
    simp only [mapOrError, show recA2.embedding.getD [] = List.replicate 384 (1 : ℝ) from rfl,
      show recB2.embedding.getD [] = List.replicate 384 (1 : ℝ) from rfl, hnorm]]
  dsimp only
  rw [show aopts3.maxResults = 20 from rfl,
    show aopts3.minSimilarity = (0.1 : ℝ) from rfl, hff]

theorem lex2_nonempty :
    searchSimilarFaculty "learning machine" aopts3.toMatchOptions
      [recA2, recB2] ≠ [] := by
  have hidf : calculateIDF [["learning", "machine"], ["learning", "machine"],
      ["zebra"]] "learning" = Real.log (3 / 2) := by
    unfold calculateIDF
    dsimp only
    rw [show (([["learning", "machine"], ["learning", "machine"],
      ["zebra"]] : List (List String)).filter
        (fun doc => doc.contains "learning")).length = 2 from by decide]
    rw [if_neg (by norm_num)]
    norm_num
  have hidfm : calculateIDF [["learning", "machine"], ["learning", "machine"],
      ["zebra"]] "machine" = Real.log (3 / 2) := by
    unfold calculateIDF
    dsimp only
    rw [show (([["learning", "machine"], ["learning", "machine"],
      ["zebra"]] : List (List String)).filter
        (fun doc => doc.contains "machine")).length = 2 from by decide]
    rw [if_neg (by norm_num)]
    norm_num
  have htfl : calculateTF ["learning", "machine"] "learning" = 1 / 2 := by
    unfold calculateTF
    rw [show List.count "learning" ["learning", "machine"] = 1 from by decide,
      show (["learning", "machine"] : List String).length = 2 from by decide]
    norm_num
  have htfm : calculateTF ["learning", "machine"] "machine" = 1 / 2 := by
    unfold calculateTF
    rw [show List.count "machine" ["learning", "machine"] = 1 from by decide,
      show (["learning", "machine"] : List String).length = 2 from by decide]
    norm_num
  have htfz : calculateTF ["learning", "machine"] "zebra" = 0 := by
    unfold calculateTF
    rw [show List.count "zebra" ["learning", "machine"] = 0 from by decide]
    norm_num
  have hL : (0 : ℝ) < Real.log (3 / 2) := Real.log_pos (by norm_num)
  have hvec : calculateTFIDF (calculateTF ["learning", "machine"])
      (calculateIDF [["learning", "machine"], ["learning", "machine"], ["zebra"]])
      ["learning", "machine", "zebra"] =
      [1 / 2 * Real.log (3 / 2), 1 / 2 * Real.log (3 / 2),
        0 * calculateIDF [["learning", "machine"], ["learning", "machine"],
          ["zebra"]] "zebra"] := by
    unfold calculateTFIDF
    rw [show List.mergeSort ["learning", "machine", "zebra"] stringLE =
      ["learning", "machine", "zebra"] from List.mergeSort_of_sorted (by decide)]
    simp only [List.map_cons, List.map_nil]
    rw [htfl, htfm, htfz, hidf, hidfm]
  have hself : cosineSimilarity
      [1 / 2 * Real.log (3 / 2), 1 / 2 * Real.log (3 / 2),
        0 * calculateIDF [["learning", "machine"], ["learning", "machine"],
          ["zebra"]] "zebra"]
      [1 / 2 * Real.log (3 / 2), 1 / 2 * Real.log (3 / 2),
        0 * calculateIDF [["learning", "machine"], ["learning", "machine"],
          ["zebra"]] "zebra"] = 1 := by
    refine cosineSimilarity_self _ ?_
    simp only [sumSq_cons, sumSq_nil]
    have h1 : (0 : ℝ) < (1 / 2 * Real.log (3 / 2)) * (1 / 2 * Real.log (3 / 2)) := by
      nlinarith
    nlinarith [mul_self_nonneg (0 * calculateIDF [["learning", "machine"],
      ["learning", "machine"], ["zebra"]] "zebra")]
  unfold searchSimilarFaculty
  dsimp only
  rw [show applyFilters aopts3.toMatchOptions [recA2, recB2] = [recA2, recB2] from rfl]
  rw [show aopts3.toMatchOptions.minSimilarity = (0.1 : ℝ) from rfl,
    show aopts3.toMatchOptions.maxResults = 20 from rfl]
  rw [show List.map (fun f => tokenize f.keywords) [recA2, recB2] =
    [tokenize "learning machine", tokenize "zebra"] from rfl]
  rw [show tokenize "learning machine" = ["learning", "machine"] from by decide,
    show tokenize "zebra" = ["zebra"] from by decide]
  rw [show jsSetOfList ([["learning", "machine"], ["learning", "machine"],
    ["zebra"]] : List (List String)).flatten = ["learning", "machine", "zebra"] from by
    decide]
  rw [if_neg (by norm_num)]
  simp only [List.filterMap_cons]
  rw [show recA2.keywords = "learning machine" from rfl,
    show tokenize "learning machine" = ["learning", "machine"] from by decide]
  rw [hvec, hself, if_pos (by norm_num)]
  intro h
  have hlen := congrArg List.length h
  rw [List.length_take, List.length_mergeSort] at hlen
  simp only [List.length_cons, List.length_nil] at hlen
  rcases Nat.min_eq_zero_iff.mp hlen with h' | h'
  · exact absurd h' (by norm_num)
  · exact absurd h' (by simp)

/-- Claim C2, counterexample to the claim as stated: the probe passes, the
dense candidate fetch and embedding normalization succeed, and a dimension
mismatch is thrown while ranking densely (inside `findSimilar`) — but
`findSimilarFaculty` swallows it, so `searchAdvancedSimilarity` returns
`[]` instead of the non-empty result of `searchSimilarFaculty` with the
identical arguments. -/
theorem claim2_counterexample :
    (aopts3.useAdvanced && testEmbeddingService pBad) = true ∧
    findSimilar [(1 : ℝ), 2, 3] [cand2A, cand2B] 20 (0.1 : ℝ) =
      .error .dimensionMismatch ∧
    searchAdvancedSimilarity pBad "learning machine" aopts3 [recA2, recB2] = [] ∧
    searchSimilarFaculty "learning machine" aopts3.toMatchOptions
      [recA2, recB2] ≠ [] := by
  refine ⟨by rw [testEmbeddingService_pBad]; rfl, findSimilar_pBad_error, ?_,
    lex2_nonempty⟩
  unfold searchAdvancedSimilarity
  rw [show (aopts3.useAdvanced && testEmbeddingService pBad) = true from by
    rw [testEmbeddingService_pBad]; rfl]
  rw [if_pos rfl, dense2_eval]

end FacultyMatch
